import Mathlib

/-!
# libquo: the context facade of `src/quo.c`

A shallow embedding of the public routines of `src/quo.c`.

* A `quo_t *` is an address (`Option Nat`, `none` is NULL); the contexts that are
  allocated live in `State.heap`.  Reading a field through NULL or through an
  address that is not allocated is undefined behaviour: the routine yields `none`.
* An output pointer is a `Ptr α`: `none` is NULL, `some v` points to a caller-owned
  cell that holds `v`; a routine hands back the cell's content after the call.
* The collaborators (`quo_hwloc_*`, `quo_mpi_*`) and the C library are not part of
  `quo.c`.  Their behaviour is a parameter, `Collab W`: each call maps the
  collaborators' state `W` and the arguments to a return code, the content written
  through the output pointer, and the next `W`.  Every call is also appended to
  `State.trace`, so that "no call is made" can be stated.
* The constants of `quo.h` and `quo-private.h` are a parameter, `Consts`.
-/

namespace Quo

/-- An OS process identifier (`pid_t`). -/
abbrev pid_t := Int

/-- A non-null pointer to a collaborator object (`quo_hwloc_t *`, `quo_mpi_t *`). -/
abbrev Handle := Nat

/-- A pointer argument to a caller-owned cell: `none` is NULL, `some v` points to a
cell holding `v`. -/
abbrev Ptr (α : Type) := Option α

/-- A `char *` value: NULL or a string. -/
abbrev CStr := Option String

/-- An `int *` value: NULL or an allocated buffer with these elements. -/
abbrev IntArr := Option (List Int)

/-- `struct quo_t` (quo.c, lines 29-34). -/
structure quo_t where
  initialized : Bool
  pid : pid_t
  hwloc : Option Handle
  mpi : Option Handle
deriving DecidableEq, Repr

/-- The constants `quo.c` takes from `quo.h` and `quo-private.h` (return codes, object
types, the diagnostic prefix) and `sizeof(int)`; the headers are not among the sources,
so the values are parameters. -/
structure Consts where
  QUO_SUCCESS : Int
  QUO_SUCCESS_ALREADY_DONE : Int
  QUO_ERR : Int
  QUO_ERR_OOR : Int
  QUO_ERR_INVLD_ARG : Int
  QUO_ERR_CALL_BEFORE_INIT : Int
  QUO_SOCKET : Int
  QUO_CORE : Int
  QUO_PU : Int
  QUO_ERR_PREFIX : String
  sizeof_int : Int

/-- What `quo.c` does to the outside: calls into the collaborators and the C library,
with the arguments passed by value. -/
inductive Event where
  | fprintf_stderr (fmt : String) (args : List String)
  | QUO_OOR_COMPLAIN
  | calloc
  | free (a : Nat)
  | getpid
  | realloc (size : Int)
  | free_buf
  | quo_hwloc_construct
  | quo_mpi_construct
  | quo_hwloc_destruct (h : Handle)
  | quo_mpi_destruct (m : Handle)
  | quo_mpi_init (m : Option Handle)
  | quo_hwloc_node_topo_stringify (h : Option Handle)
  | quo_hwloc_get_nobjs_in_type_by_type (h : Option Handle) (in_type : Int)
      (in_type_index : Nat) (type : Int)
  | quo_hwloc_is_in_cpuset_by_type_id (h : Option Handle) (type : Int) (pid : pid_t)
      (in_type_index : Nat)
  | quo_hwloc_get_nobjs_by_type (h : Option Handle) (type : Int)
  | quo_hwloc_bound (h : Option Handle) (pid : pid_t)
  | quo_hwloc_stringify_cbind (h : Option Handle) (pid : pid_t)
  | quo_mpi_nnodes (m : Option Handle)
  | quo_mpi_nnoderanks (m : Option Handle)
  | quo_mpi_noderank (m : Option Handle)
  | quo_mpi_smprank2pid (m : Option Handle) (rank : Int)
  | quo_hwloc_bind_push (h : Option Handle) (policy : Int) (type : Int) (obj_index : Nat)
  | quo_hwloc_bind_pop (h : Option Handle)
  | quo_mpi_ranks_on_node (m : Option Handle)
deriving DecidableEq, Repr

/-- Whether the event is a call into the topology (`quo_hwloc_*`) or the node-group
(`quo_mpi_*`) collaborator. -/
def Event.is_collab : Event → Bool
  | .fprintf_stderr _ _ => false
  | .QUO_OOR_COMPLAIN => false
  | .calloc => false
  | .free _ => false
  | .getpid => false
  | .realloc _ => false
  | .free_buf => false
  | _ => true

/-- The answer of a collaborator call: the return code, the content of the cell behind
the output pointer after the call, and the collaborators' next state. -/
structure Reply (W : Type) (α : Type) where
  rc : Int
  out : α
  world : W

/-- The behaviour of everything `quo.c` calls and does not define.  A routine with an
output pointer gets the cell's content before the call and answers the content after
it. -/
structure Collab (W : Type) where
  calloc : W → Option Nat × W
  getpid : W → pid_t × W
  realloc : W → Int → Bool × W
  quo_hwloc_construct : W → Option Handle → Reply W (Option Handle)
  quo_mpi_construct : W → Option Handle → Reply W (Option Handle)
  quo_hwloc_destruct : W → Handle → Reply W Unit
  quo_mpi_destruct : W → Handle → Reply W Unit
  quo_mpi_init : W → Option Handle → Reply W Unit
  quo_hwloc_node_topo_stringify : W → Option Handle → CStr → Reply W CStr
  quo_hwloc_get_nobjs_in_type_by_type :
    W → Option Handle → Int → Nat → Int → Int → Reply W Int
  quo_hwloc_is_in_cpuset_by_type_id :
    W → Option Handle → Int → pid_t → Nat → Int → Reply W Int
  quo_hwloc_get_nobjs_by_type : W → Option Handle → Int → Int → Reply W Int
  quo_hwloc_bound : W → Option Handle → pid_t → Bool → Reply W Bool
  quo_hwloc_stringify_cbind : W → Option Handle → pid_t → CStr → Reply W CStr
  quo_mpi_nnodes : W → Option Handle → Int → Reply W Int
  quo_mpi_nnoderanks : W → Option Handle → Int → Reply W Int
  quo_mpi_noderank : W → Option Handle → Int → Reply W Int
  quo_mpi_smprank2pid : W → Option Handle → Int → pid_t → Reply W pid_t
  quo_hwloc_bind_push : W → Option Handle → Int → Int → Nat → Reply W Unit
  quo_hwloc_bind_pop : W → Option Handle → Reply W Unit
  quo_mpi_ranks_on_node : W → Option Handle → Int → IntArr → Reply W (Int × IntArr)

/-- The program state: the allocated contexts, the collaborators' state, and the calls
made so far. -/
structure State (W : Type) where
  heap : Nat → Option quo_t
  world : W
  trace : List Event

/-- What a routine hands back: the return code, the output cells after the call, and
the state. -/
structure Res (W : Type) (α : Type) where
  rc : Int
  out : α
  st : State W

variable {W : Type}

/-- Record an event that leaves the collaborators' state alone. -/
def State.emit (s : State W) (e : Event) : State W :=
  { s with trace := s.trace ++ [e] }

/-- Record a call and move to the collaborators' next state. -/
def State.call (s : State W) (e : Event) (w : W) : State W :=
  { s with world := w, trace := s.trace ++ [e] }

/-- Store a context at an address of the heap (or drop the address, with `none`). -/
def State.store (s : State W) (a : Nat) (c : Option quo_t) : State W :=
  { s with heap := Function.update s.heap a c }

/-- Reading `q->field`: the context behind `q`, `none` when `q` is NULL or not allocated. -/
def State.deref (s : State W) (q : Option Nat) : Option quo_t :=
  match q with
  | none => none
  | some a => s.heap a

/-- The conversion of an `int` to `unsigned` (32 bits). -/
def to_unsigned (i : Int) : Nat := (i % 2 ^ 32).toNat

/-- `(int)b` for a `bool`. -/
def bool_to_int (b : Bool) : Int := if b then 1 else 0

/-- The format string of `noinit_msg_emit`. -/
def noinit_fmt (K : Consts) : String :=
  K.QUO_ERR_PREFIX ++ "%s called before %s. Cannot continue.\n"

/-- The format string of the "failed" diagnostics of `quo_init` and `quo_construct`. -/
def failed_fmt (K : Consts) : String :=
  K.QUO_ERR_PREFIX ++ "%s failed. Cannot continue.\n"

/-- `noinit_msg_emit` (quo.c, lines 39-44). -/
def noinit_msg_emit (K : Consts) (func : String) (s : State W) : State W :=
  s.emit (Event.fprintf_stderr (noinit_fmt K) [func, "quo_init"])

/-- The macro `noinit_action` (quo.c, lines 46-52) inside the routine `func`: it reads
`(qp)->initialized`, and when the flag is clear it emits the diagnostic and makes the
routine return `QUO_ERR_CALL_BEFORE_INIT`; otherwise the routine goes on with `k`. -/
def noinit_action {α : Type} (K : Consts) (func : String) (s : State W) (qp : Option Nat)
    (out : α) (k : quo_t → Option (Res W α)) : Option (Res W α) :=
  match s.deref qp with
  | none => none
  | some ctx =>
    if !ctx.initialized then
      some ⟨K.QUO_ERR_CALL_BEFORE_INIT, out, noinit_msg_emit K func s⟩
    else k ctx

/-- `quo_init` (quo.c, lines 93-108). -/
def quo_init (C : Collab W) (K : Consts) (s : State W) (q : Option Nat) :
    Option (Res W Unit) :=
  match q with
  | none => some ⟨K.QUO_ERR_INVLD_ARG, (), s⟩
  | some a =>
    match s.heap a with
    | none => none
    | some ctx =>
      if ctx.initialized then some ⟨K.QUO_SUCCESS_ALREADY_DONE, (), s⟩
      else
        let r := C.quo_mpi_init s.world ctx.mpi
        let s1 := s.call (Event.quo_mpi_init ctx.mpi) r.world
        if K.QUO_SUCCESS ≠ r.rc then
          some ⟨r.rc, (), s1.emit (Event.fprintf_stderr (failed_fmt K) ["quo_mpi_init"])⟩
        else
          some ⟨K.QUO_SUCCESS, (), s1.store a (some { ctx with initialized := true })⟩

/-- `quo_initialized` (quo.c, lines 111-118). -/
def quo_initialized (K : Consts) (s : State W) (q : Option Nat)
    (out_initialized : Ptr Int) : Option (Res W (Ptr Int)) :=
  match out_initialized, q with
  | some _, some a =>
    match s.heap a with
    | none => none
    | some ctx => some ⟨K.QUO_SUCCESS, some (bool_to_int ctx.initialized), s⟩
  | _, _ => some ⟨K.QUO_ERR_INVLD_ARG, out_initialized, s⟩

/-- `quo_destruct` (quo.c, lines 153-167). -/
def quo_destruct (C : Collab W) (K : Consts) (s : State W) (q : Option Nat) :
    Option (Res W Unit) :=
  match q with
  | none => some ⟨K.QUO_ERR_INVLD_ARG, (), s⟩
  | some a =>
    match s.heap a with
    | none => none
    | some ctx =>
      let nerrs0 : Int := 0
      let (nerrs1, s1) :=
        match ctx.hwloc with
        | some h =>
          let r := C.quo_hwloc_destruct s.world h
          (if K.QUO_SUCCESS ≠ r.rc then nerrs0 + 1 else nerrs0,
            s.call (Event.quo_hwloc_destruct h) r.world)
        | none => (nerrs0, s)
      let (nerrs2, s2) :=
        match ctx.mpi with
        | some m =>
          let r := C.quo_mpi_destruct s1.world m
          (if K.QUO_SUCCESS ≠ r.rc then nerrs1 + 1 else nerrs1,
            s1.call (Event.quo_mpi_destruct m) r.world)
        | none => (nerrs1, s1)
      let s3 := (s2.store a none).emit (Event.free a)
      some ⟨if nerrs2 = 0 then K.QUO_SUCCESS else K.QUO_ERR, (), s3⟩

/-- The code of `quo_construct` from the label `out:` on (quo.c, lines 143-149). -/
def quo_construct_out (C : Collab W) (K : Consts) (s : State W) (qrc : Int) (newq : Nat) :
    Option (Res W (Ptr (Option Nat))) :=
  if K.QUO_SUCCESS ≠ qrc then
    match quo_destruct C K s (some newq) with
    | none => none
    | some d =>
      -- `*q = NULL;` inside the branch, then `*q = newq;` after it
      let q1 : Ptr (Option Nat) := some none
      let q2 : Ptr (Option Nat) := q1.map fun _ => some newq
      some ⟨qrc, q2, d.st⟩
  else
    some ⟨qrc, some (some newq), s⟩

/-- `quo_construct` (quo.c, lines 121-150). -/
def quo_construct (C : Collab W) (K : Consts) (s : State W) (q : Ptr (Option Nat)) :
    Option (Res W (Ptr (Option Nat))) :=
  match q with
  | none => some ⟨K.QUO_ERR_INVLD_ARG, q, s⟩
  | some _ =>
    let m := C.calloc s.world
    let s1 := s.call Event.calloc m.2
    match m.1 with
    | none => some ⟨K.QUO_ERR_OOR, q, s1.emit Event.QUO_OOR_COMPLAIN⟩
    | some newq =>
      let zeroed : quo_t := ⟨false, 0, none, none⟩
      let r1 := C.quo_hwloc_construct s1.world zeroed.hwloc
      let c1 : quo_t := { zeroed with hwloc := r1.out }
      let s2 := (s1.call Event.quo_hwloc_construct r1.world).store newq (some c1)
      if K.QUO_SUCCESS ≠ r1.rc then
        quo_construct_out C K
          (s2.emit (Event.fprintf_stderr (failed_fmt K) ["quo_hwloc_construct"])) r1.rc newq
      else
        let r2 := C.quo_mpi_construct s2.world c1.mpi
        let c2 : quo_t := { c1 with mpi := r2.out }
        let s3 := (s2.call Event.quo_mpi_construct r2.world).store newq (some c2)
        if K.QUO_SUCCESS ≠ r2.rc then
          quo_construct_out C K
            (s3.emit (Event.fprintf_stderr (failed_fmt K) ["quo_mpi_construct"])) r2.rc newq
        else
          let p := C.getpid s3.world
          let c3 : quo_t := { c2 with pid := p.1 }
          let s4 := (s3.call Event.getpid p.2).store newq (some c3)
          quo_construct_out C K s4 r2.rc newq

/-- `quo_finalize` (quo.c, lines 170-178). -/
def quo_finalize (K : Consts) (s : State W) (q : Option Nat) : Option (Res W Unit) :=
  match q with
  | none => some ⟨K.QUO_ERR_INVLD_ARG, (), s⟩
  | some _ =>
    noinit_action K "quo_finalize" s q () fun _ => some ⟨K.QUO_SUCCESS, (), s⟩

/-- `quo_node_topo_stringify` (quo.c, lines 181-189). -/
def quo_node_topo_stringify (C : Collab W) (K : Consts) (s : State W) (q : Option Nat)
    (out_str : Ptr CStr) : Option (Res W (Ptr CStr)) :=
  noinit_action K "quo_node_topo_stringify" s q out_str fun ctx =>
    match q, out_str with
    | some _, some cell =>
      let r := C.quo_hwloc_node_topo_stringify s.world ctx.hwloc cell
      some ⟨r.rc, some r.out, s.call (Event.quo_hwloc_node_topo_stringify ctx.hwloc) r.world⟩
    | _, _ => some ⟨K.QUO_ERR_INVLD_ARG, out_str, s⟩

/-- `quo_get_nobjs_in_type_by_type` (quo.c, lines 192-207). -/
def quo_get_nobjs_in_type_by_type (C : Collab W) (K : Consts) (s : State W)
    (q : Option Nat) (in_type : Int) (in_type_index : Int) (type : Int)
    (out_result : Ptr Int) : Option (Res W (Ptr Int)) :=
  noinit_action K "quo_get_nobjs_in_type_by_type" s q out_result fun ctx =>
    match q, out_result with
    | some _, some cell =>
      let r := C.quo_hwloc_get_nobjs_in_type_by_type s.world ctx.hwloc in_type
        (to_unsigned in_type_index) type cell
      some ⟨r.rc, some r.out,
        s.call (Event.quo_hwloc_get_nobjs_in_type_by_type ctx.hwloc in_type
          (to_unsigned in_type_index) type) r.world⟩
    | _, _ => some ⟨K.QUO_ERR_INVLD_ARG, out_result, s⟩

/-- `quo_cur_cpuset_in_type` (quo.c, lines 210-222). -/
def quo_cur_cpuset_in_type (C : Collab W) (K : Consts) (s : State W) (q : Option Nat)
    (type : Int) (in_type_index : Int) (out_result : Ptr Int) : Option (Res W (Ptr Int)) :=
  noinit_action K "quo_cur_cpuset_in_type" s q out_result fun ctx =>
    match q, out_result with
    | some _, some cell =>
      let r := C.quo_hwloc_is_in_cpuset_by_type_id s.world ctx.hwloc type ctx.pid
        (to_unsigned in_type_index) cell
      some ⟨r.rc, some r.out,
        s.call (Event.quo_hwloc_is_in_cpuset_by_type_id ctx.hwloc type ctx.pid
          (to_unsigned in_type_index)) r.world⟩
    | _, _ => some ⟨K.QUO_ERR_INVLD_ARG, out_result, s⟩

/-- `quo_get_nobjs_by_type` (quo.c, lines 280-289). -/
def quo_get_nobjs_by_type (C : Collab W) (K : Consts) (s : State W) (q : Option Nat)
    (target_type : Int) (out_nobjs : Ptr Int) : Option (Res W (Ptr Int)) :=
  noinit_action K "quo_get_nobjs_by_type" s q out_nobjs fun ctx =>
    match q, out_nobjs with
    | some _, some cell =>
      let r := C.quo_hwloc_get_nobjs_by_type s.world ctx.hwloc target_type cell
      some ⟨r.rc, some r.out,
        s.call (Event.quo_hwloc_get_nobjs_by_type ctx.hwloc target_type) r.world⟩
    | _, _ => some ⟨K.QUO_ERR_INVLD_ARG, out_nobjs, s⟩

/-- `quo_nsockets` (quo.c, lines 292-300). -/
def quo_nsockets (C : Collab W) (K : Consts) (s : State W) (q : Option Nat)
    (out_nsockets : Ptr Int) : Option (Res W (Ptr Int)) :=
  noinit_action K "quo_nsockets" s q out_nsockets fun ctx =>
    match q, out_nsockets with
    | some _, some cell =>
      let r := C.quo_hwloc_get_nobjs_by_type s.world ctx.hwloc K.QUO_SOCKET cell
      some ⟨r.rc, some r.out,
        s.call (Event.quo_hwloc_get_nobjs_by_type ctx.hwloc K.QUO_SOCKET) r.world⟩
    | _, _ => some ⟨K.QUO_ERR_INVLD_ARG, out_nsockets, s⟩

/-- `quo_ncores` (quo.c, lines 303-311). -/
def quo_ncores (C : Collab W) (K : Consts) (s : State W) (q : Option Nat)
    (out_ncores : Ptr Int) : Option (Res W (Ptr Int)) :=
  noinit_action K "quo_ncores" s q out_ncores fun ctx =>
    match q, out_ncores with
    | some _, some cell =>
      let r := C.quo_hwloc_get_nobjs_by_type s.world ctx.hwloc K.QUO_CORE cell
      some ⟨r.rc, some r.out,
        s.call (Event.quo_hwloc_get_nobjs_by_type ctx.hwloc K.QUO_CORE) r.world⟩
    | _, _ => some ⟨K.QUO_ERR_INVLD_ARG, out_ncores, s⟩

/-- `quo_npus` (quo.c, lines 314-322). -/
def quo_npus (C : Collab W) (K : Consts) (s : State W) (q : Option Nat)
    (out_npus : Ptr Int) : Option (Res W (Ptr Int)) :=
  noinit_action K "quo_npus" s q out_npus fun ctx =>
    match q, out_npus with
    | some _, some cell =>
      let r := C.quo_hwloc_get_nobjs_by_type s.world ctx.hwloc K.QUO_PU cell
      some ⟨r.rc, some r.out,
        s.call (Event.quo_hwloc_get_nobjs_by_type ctx.hwloc K.QUO_PU) r.world⟩
    | _, _ => some ⟨K.QUO_ERR_INVLD_ARG, out_npus, s⟩

/-- `quo_bound` (quo.c, lines 325-339). -/
def quo_bound (C : Collab W) (K : Consts) (s : State W) (q : Option Nat)
    (bound : Ptr Int) : Option (Res W (Ptr Int)) :=
  let bound_b := false
  noinit_action K "quo_bound" s q bound fun ctx =>
    match q, bound with
    | some _, some _ =>
      let r := C.quo_hwloc_bound s.world ctx.hwloc ctx.pid bound_b
      let s1 := s.call (Event.quo_hwloc_bound ctx.hwloc ctx.pid) r.world
      if K.QUO_SUCCESS ≠ r.rc then some ⟨r.rc, bound, s1⟩
      else some ⟨K.QUO_SUCCESS, some (bool_to_int r.out), s1⟩
    | _, _ => some ⟨K.QUO_ERR_INVLD_ARG, bound, s⟩

/-- `quo_stringify_cbind` (quo.c, lines 342-349). -/
def quo_stringify_cbind (C : Collab W) (K : Consts) (s : State W) (q : Option Nat)
    (cbind_str : Ptr CStr) : Option (Res W (Ptr CStr)) :=
  noinit_action K "quo_stringify_cbind" s q cbind_str fun ctx =>
    match q, cbind_str with
    | some _, some cell =>
      let r := C.quo_hwloc_stringify_cbind s.world ctx.hwloc ctx.pid cell
      some ⟨r.rc, some r.out,
        s.call (Event.quo_hwloc_stringify_cbind ctx.hwloc ctx.pid) r.world⟩
    | _, _ => some ⟨K.QUO_ERR_INVLD_ARG, cbind_str, s⟩

/-- `quo_nnodes` (quo.c, lines 352-359). -/
def quo_nnodes (C : Collab W) (K : Consts) (s : State W) (q : Option Nat)
    (out_nodes : Ptr Int) : Option (Res W (Ptr Int)) :=
  noinit_action K "quo_nnodes" s q out_nodes fun ctx =>
    match q, out_nodes with
    | some _, some cell =>
      let r := C.quo_mpi_nnodes s.world ctx.mpi cell
      some ⟨r.rc, some r.out, s.call (Event.quo_mpi_nnodes ctx.mpi) r.world⟩
    | _, _ => some ⟨K.QUO_ERR_INVLD_ARG, out_nodes, s⟩

/-- `quo_nnoderanks` (quo.c, lines 362-369). -/
def quo_nnoderanks (C : Collab W) (K : Consts) (s : State W) (q : Option Nat)
    (out_nnoderanks : Ptr Int) : Option (Res W (Ptr Int)) :=
  noinit_action K "quo_nnoderanks" s q out_nnoderanks fun ctx =>
    match q, out_nnoderanks with
    | some _, some cell =>
      let r := C.quo_mpi_nnoderanks s.world ctx.mpi cell
      some ⟨r.rc, some r.out, s.call (Event.quo_mpi_nnoderanks ctx.mpi) r.world⟩
    | _, _ => some ⟨K.QUO_ERR_INVLD_ARG, out_nnoderanks, s⟩

/-- `quo_noderank` (quo.c, lines 372-379). -/
def quo_noderank (C : Collab W) (K : Consts) (s : State W) (q : Option Nat)
    (out_noderank : Ptr Int) : Option (Res W (Ptr Int)) :=
  noinit_action K "quo_noderank" s q out_noderank fun ctx =>
    match q, out_noderank with
    | some _, some cell =>
      let r := C.quo_mpi_noderank s.world ctx.mpi cell
      some ⟨r.rc, some r.out, s.call (Event.quo_mpi_noderank ctx.mpi) r.world⟩
    | _, _ => some ⟨K.QUO_ERR_INVLD_ARG, out_noderank, s⟩

/-- `quo_bind_push` (quo.c, lines 382-391). -/
def quo_bind_push (C : Collab W) (K : Consts) (s : State W) (q : Option Nat)
    (policy : Int) (type : Int) (obj_index : Int) : Option (Res W Unit) :=
  noinit_action K "quo_bind_push" s q () fun ctx =>
    match q with
    | none => some ⟨K.QUO_ERR_INVLD_ARG, (), s⟩
    | some _ =>
      let r := C.quo_hwloc_bind_push s.world ctx.hwloc policy type (to_unsigned obj_index)
      some ⟨r.rc, (),
        s.call (Event.quo_hwloc_bind_push ctx.hwloc policy type (to_unsigned obj_index))
          r.world⟩

/-- `quo_bind_pop` (quo.c, lines 394-400). -/
def quo_bind_pop (C : Collab W) (K : Consts) (s : State W) (q : Option Nat) :
    Option (Res W Unit) :=
  noinit_action K "quo_bind_pop" s q () fun ctx =>
    match q with
    | none => some ⟨K.QUO_ERR_INVLD_ARG, (), s⟩
    | some _ =>
      let r := C.quo_hwloc_bind_pop s.world ctx.hwloc
      some ⟨r.rc, (), s.call (Event.quo_hwloc_bind_pop ctx.hwloc) r.world⟩

/-- `quo_ranks_on_node` (quo.c, lines 403-411). -/
def quo_ranks_on_node (C : Collab W) (K : Consts) (s : State W) (q : Option Nat)
    (out_nranks : Ptr Int) (out_ranks : Ptr IntArr) :
    Option (Res W (Ptr Int × Ptr IntArr)) :=
  noinit_action K "quo_ranks_on_node" s q (out_nranks, out_ranks) fun ctx =>
    match out_nranks, out_ranks with
    | some n, some l =>
      let r := C.quo_mpi_ranks_on_node s.world ctx.mpi n l
      some ⟨r.rc, (some r.out.1, some r.out.2),
        s.call (Event.quo_mpi_ranks_on_node ctx.mpi) r.world⟩
    | _, _ => some ⟨K.QUO_ERR_INVLD_ARG, (out_nranks, out_ranks), s⟩

/-- The locals of `quo_smpranks_in_type` that its loop updates. -/
structure SmpLocals where
  rc : Int
  nsmpranks : Int
  smpranks : IntArr
deriving DecidableEq, Repr

/-- The buffer a successful `realloc(p, n * sizeof(int))` gives: `n` elements, the old
ones kept, a new slot holding 0 (indeterminate in C, and written before it is read). -/
def realloc_buf (p : IntArr) (n : Nat) : List Int :=
  (p.getD []).take n ++ List.replicate (n - (p.getD []).length) 0

/-- The loop of `quo_smpranks_in_type` (quo.c, lines 245-269), entered at `rank` with
`remaining = tot_smpranks - rank` iterations to go: `rank < tot_smpranks` holds exactly
while `remaining` is positive.  The `Bool` is `true` when the loop ran to its end and
`false` when it left through `goto out`. -/
def smpranks_loop (C : Collab W) (K : Consts) (ctx : quo_t) (type : Int)
    (in_type_index : Int) : Nat → Int → SmpLocals → State W → Bool × SmpLocals × State W
  | 0, _, L, s => (true, L, s)
  | remaining + 1, rank, L, s =>
    let in_cpuset : Int := 0
    let rpid : pid_t := 0
    let r1 := C.quo_mpi_smprank2pid s.world ctx.mpi rank rpid
    let s1 := s.call (Event.quo_mpi_smprank2pid ctx.mpi rank) r1.world
    if K.QUO_SUCCESS ≠ r1.rc then (false, { L with rc := r1.rc }, s1)
    else
      let r2 := C.quo_hwloc_is_in_cpuset_by_type_id s1.world ctx.hwloc type r1.out
        (to_unsigned in_type_index) in_cpuset
      let s2 := s1.call (Event.quo_hwloc_is_in_cpuset_by_type_id ctx.hwloc type r1.out
        (to_unsigned in_type_index)) r2.world
      if K.QUO_SUCCESS ≠ r2.rc then (false, { L with rc := r2.rc }, s2)
      else if r2.out ≠ 0 then
        let size := (L.nsmpranks + 1) * K.sizeof_int
        let m := C.realloc s2.world size
        let s3 := s2.call (Event.realloc size) m.2
        if !m.1 then (false, { L with rc := K.QUO_ERR_OOR }, s3)
        else
          let newsmpranks := realloc_buf L.smpranks (L.nsmpranks + 1).toNat
          smpranks_loop C K ctx type in_type_index remaining (rank + 1)
            ⟨r2.rc, L.nsmpranks + 1, some (newsmpranks.set L.nsmpranks.toNat rank)⟩ s3
      else
        smpranks_loop C K ctx type in_type_index remaining (rank + 1) { L with rc := r2.rc } s2

/-- The end of `quo_smpranks_in_type` (quo.c, lines 270-276), reached with the outcome
`p` of the loop.  The two stores to the outputs are executed when the loop ran to its
end and are skipped by `goto out`, which leaves the 0 and the NULL stored on entry; at
`out:` the buffer is released when `rc` is not `QUO_SUCCESS`. -/
def smpranks_finish (K : Consts) (p : Bool × SmpLocals × State W) :
    Res W (Ptr Int × Ptr IntArr) :=
  ⟨p.2.1.rc,
    if p.1 then (some p.2.1.nsmpranks, some p.2.1.smpranks) else (some 0, some none),
    if K.QUO_SUCCESS ≠ p.2.1.rc ∧ p.2.1.smpranks.isSome then p.2.2.emit Event.free_buf
    else p.2.2⟩

/-- `quo_smpranks_in_type` (quo.c, lines 228-277). -/
def quo_smpranks_in_type (C : Collab W) (K : Consts) (s : State W) (q : Option Nat)
    (type : Int) (in_type_index : Int) (n_out_smpranks : Ptr Int)
    (out_smpranks : Ptr IntArr) : Option (Res W (Ptr Int × Ptr IntArr)) :=
  match q, n_out_smpranks, out_smpranks with
  | some a, some _, some _ =>
    -- `*n_out_smpranks = 0; *out_smpranks = NULL;`
    let n_out : Ptr Int := some 0
    let out : Ptr IntArr := some none
    let tot_smpranks : Int := 0
    match quo_nnoderanks C K s q (some tot_smpranks) with
    | none => none
    | some r0 =>
      if K.QUO_SUCCESS ≠ r0.rc then some ⟨r0.rc, (n_out, out), r0.st⟩
      else
        match r0.st.heap a with
        | none => none
        | some ctx =>
          let tot_smpranks := r0.out.getD tot_smpranks
          some (smpranks_finish K
            (smpranks_loop C K ctx type in_type_index (tot_smpranks - 0).toNat 0
              ⟨r0.rc, 0, none⟩ r0.st))
  | _, _, _ => some ⟨K.QUO_ERR_INVLD_ARG, (n_out_smpranks, out_smpranks), s⟩

/-! ## The guarded routines as one family

`InitOp` lists the calls of the routines that require `quo_init`, each with its
arguments, so that a statement can range over all of them. -/

/-- The cells behind the output pointers of a call, as a routine of any signature
hands them back. -/
inductive OutCells where
  | nothing
  | int (p : Ptr Int)
  | str (p : Ptr CStr)
  | arr (n : Ptr Int) (p : Ptr IntArr)
deriving DecidableEq, Repr

/-- Whether one of the output pointers is NULL. -/
def OutCells.has_null : OutCells → Bool
  | .nothing => false
  | .int p => p.isNone
  | .str p => p.isNone
  | .arr n p => n.isNone || p.isNone

/-- A call of a routine that requires `quo_init`, with the arguments after the context. -/
inductive InitOp where
  | quo_finalize
  | quo_node_topo_stringify (out_str : Ptr CStr)
  | quo_get_nobjs_by_type (target_type : Int) (out_nobjs : Ptr Int)
  | quo_get_nobjs_in_type_by_type (in_type : Int) (in_type_index : Int) (type : Int)
      (out_result : Ptr Int)
  | quo_cur_cpuset_in_type (type : Int) (in_type_index : Int) (out_result : Ptr Int)
  | quo_smpranks_in_type (type : Int) (in_type_index : Int) (n_out_smpranks : Ptr Int)
      (out_smpranks : Ptr IntArr)
  | quo_nsockets (out_nsockets : Ptr Int)
  | quo_ncores (out_ncores : Ptr Int)
  | quo_npus (out_npus : Ptr Int)
  | quo_bound (bound : Ptr Int)
  | quo_stringify_cbind (cbind_str : Ptr CStr)
  | quo_nnodes (out_nodes : Ptr Int)
  | quo_nnoderanks (out_nnoderanks : Ptr Int)
  | quo_noderank (out_noderank : Ptr Int)
  | quo_bind_push (policy : Int) (type : Int) (obj_index : Int)
  | quo_bind_pop
  | quo_ranks_on_node (out_nranks : Ptr Int) (out_ranks : Ptr IntArr)
deriving DecidableEq, Repr

/-- The name of the routine that is called. -/
def InitOp.name : InitOp → String
  | .quo_finalize => "quo_finalize"
  | .quo_node_topo_stringify _ => "quo_node_topo_stringify"
  | .quo_get_nobjs_by_type _ _ => "quo_get_nobjs_by_type"
  | .quo_get_nobjs_in_type_by_type _ _ _ _ => "quo_get_nobjs_in_type_by_type"
  | .quo_cur_cpuset_in_type _ _ _ => "quo_cur_cpuset_in_type"
  | .quo_smpranks_in_type _ _ _ _ => "quo_smpranks_in_type"
  | .quo_nsockets _ => "quo_nsockets"
  | .quo_ncores _ => "quo_ncores"
  | .quo_npus _ => "quo_npus"
  | .quo_bound _ => "quo_bound"
  | .quo_stringify_cbind _ => "quo_stringify_cbind"
  | .quo_nnodes _ => "quo_nnodes"
  | .quo_nnoderanks _ => "quo_nnoderanks"
  | .quo_noderank _ => "quo_noderank"
  | .quo_bind_push _ _ _ => "quo_bind_push"
  | .quo_bind_pop => "quo_bind_pop"
  | .quo_ranks_on_node _ _ => "quo_ranks_on_node"

/-- The function name in the diagnostic that a call on a context with the flag clear
emits, `__func__` of the routine whose `noinit_action` fires: the routine itself, except
for `quo_smpranks_in_type`, which has no guard of its own and is stopped by the guard of
the `quo_nnoderanks` it calls. -/
def InitOp.diagnosed_name : InitOp → String
  | .quo_smpranks_in_type _ _ _ _ => "quo_nnoderanks"
  | op => op.name

/-- The output cells the caller passes. -/
def InitOp.outs : InitOp → OutCells
  | .quo_finalize => .nothing
  | .quo_node_topo_stringify o => .str o
  | .quo_get_nobjs_by_type _ o => .int o
  | .quo_get_nobjs_in_type_by_type _ _ _ o => .int o
  | .quo_cur_cpuset_in_type _ _ o => .int o
  | .quo_smpranks_in_type _ _ n o => .arr n o
  | .quo_nsockets o => .int o
  | .quo_ncores o => .int o
  | .quo_npus o => .int o
  | .quo_bound o => .int o
  | .quo_stringify_cbind o => .str o
  | .quo_nnodes o => .int o
  | .quo_nnoderanks o => .int o
  | .quo_noderank o => .int o
  | .quo_bind_push _ _ _ => .nothing
  | .quo_bind_pop => .nothing
  | .quo_ranks_on_node n o => .arr n o

/-- Forget the signature of a result. -/
def Res.cells {α : Type} (f : α → OutCells) (r : Res W α) : Res W OutCells :=
  ⟨r.rc, f r.out, r.st⟩

/-- Run the call on the context `q`. -/
def InitOp.run (C : Collab W) (K : Consts) (s : State W) (q : Option Nat) :
    InitOp → Option (Res W OutCells)
  | .quo_finalize => (Quo.quo_finalize K s q).map (Res.cells fun _ => .nothing)
  | .quo_node_topo_stringify o => (Quo.quo_node_topo_stringify C K s q o).map (Res.cells .str)
  | .quo_get_nobjs_by_type t o => (Quo.quo_get_nobjs_by_type C K s q t o).map (Res.cells .int)
  | .quo_get_nobjs_in_type_by_type it i t o =>
    (Quo.quo_get_nobjs_in_type_by_type C K s q it i t o).map (Res.cells .int)
  | .quo_cur_cpuset_in_type t i o =>
    (Quo.quo_cur_cpuset_in_type C K s q t i o).map (Res.cells .int)
  | .quo_smpranks_in_type t i n o =>
    (Quo.quo_smpranks_in_type C K s q t i n o).map (Res.cells fun p => .arr p.1 p.2)
  | .quo_nsockets o => (Quo.quo_nsockets C K s q o).map (Res.cells .int)
  | .quo_ncores o => (Quo.quo_ncores C K s q o).map (Res.cells .int)
  | .quo_npus o => (Quo.quo_npus C K s q o).map (Res.cells .int)
  | .quo_bound o => (Quo.quo_bound C K s q o).map (Res.cells .int)
  | .quo_stringify_cbind o => (Quo.quo_stringify_cbind C K s q o).map (Res.cells .str)
  | .quo_nnodes o => (Quo.quo_nnodes C K s q o).map (Res.cells .int)
  | .quo_nnoderanks o => (Quo.quo_nnoderanks C K s q o).map (Res.cells .int)
  | .quo_noderank o => (Quo.quo_noderank C K s q o).map (Res.cells .int)
  | .quo_bind_push p t i => (Quo.quo_bind_push C K s q p t i).map (Res.cells fun _ => .nothing)
  | .quo_bind_pop => (Quo.quo_bind_pop C K s q).map (Res.cells fun _ => .nothing)
  | .quo_ranks_on_node n o =>
    (Quo.quo_ranks_on_node C K s q n o).map (Res.cells fun p => .arr p.1 p.2)

/-- The events a call appended to the trace of `s`. -/
def new_events (s : State W) (r : Res W OutCells) : List Event :=
  r.st.trace.drop s.trace.length

/-- The return codes of the sub-teardowns `quo_destruct` attempts on `ctx`, in the order
of the attempts: the topology handle's when it is present, then the node-group
resolver's when it is present (called in the state the first teardown left). -/
def teardown_codes (C : Collab W) (w : W) (ctx : quo_t) : List Int :=
  (ctx.hwloc.toList.map fun h => (C.quo_hwloc_destruct w h).rc) ++
  (ctx.mpi.toList.map fun m =>
    (C.quo_mpi_destruct ((ctx.hwloc.map fun h => (C.quo_hwloc_destruct w h).world).getD w)
      m).rc)

/-- Whether the routine tests the context pointer against NULL before it reads
`q->initialized`: of the guarded routines only `quo_finalize` and
`quo_smpranks_in_type` do. -/
def InitOp.null_check_first : InitOp → Bool
  | .quo_finalize => true
  | .quo_smpranks_in_type _ _ _ _ => true
  | _ => false

/-! ## The scan of `quo_smpranks_in_type`

The vocabulary in which the results on the scan are stated.  The collaborators are
described by what they answer in the states an invariant `Inv` allows: `pidOf r` is the
pid the lookup of rank `r` answers, and `contained p` tells whether the containment
query for pid `p` reports true. -/

/-- The ranks `r` in `[0, B)`, in increasing order, whose pid's containment query
reports true. -/
def selected_ranks (pidOf : Int → pid_t) (contained : pid_t → Bool) (B : Int) : List Int :=
  ((List.range B.toNat).map fun i : Nat => (i : Int)).filter fun r => contained (pidOf r)

/-- The `int *` that holds a list of ranks: NULL for no rank (the buffer is only
allocated when the first rank is found). -/
def arr_of (l : List Int) : IntArr := if l.isEmpty then none else some l

/-- The calls of the iteration of rank `r` when all of them succeed: the lookup, the
containment query and, when the query reports true, the growth of the buffer by one. -/
def rank_events (K : Consts) (ctx : quo_t) (type idx : Int) (pidOf : Int → pid_t)
    (contained : pid_t → Bool) (r : Int) : List Event :=
  [Event.quo_mpi_smprank2pid ctx.mpi r,
    Event.quo_hwloc_is_in_cpuset_by_type_id ctx.hwloc type (pidOf r) (to_unsigned idx)] ++
  if contained (pidOf r) then
    [Event.realloc ((((selected_ranks pidOf contained r).length : Int) + 1) * K.sizeof_int)]
  else []

/-- The calls of the iterations of the ranks `0, ..., n - 1`, in order. -/
def scan_events (K : Consts) (ctx : quo_t) (type idx : Int) (pidOf : Int → pid_t)
    (contained : pid_t → Bool) : Nat → List Event
  | 0 => []
  | n + 1 =>
    scan_events K ctx type idx pidOf contained n ++
      rank_events K ctx type idx pidOf contained (n : Int)

/-- In every state that `Inv` allows: the lookup of rank `r` succeeds and answers
`pidOf r`, and keeps `Inv`. -/
def lookup_succeeds (C : Collab W) (K : Consts) (ctx : quo_t) (Inv : W → Prop)
    (pidOf : Int → pid_t) (r : Int) : Prop :=
  ∀ w, Inv w →
    (C.quo_mpi_smprank2pid w ctx.mpi r 0).rc = K.QUO_SUCCESS ∧
    (C.quo_mpi_smprank2pid w ctx.mpi r 0).out = pidOf r ∧
    Inv (C.quo_mpi_smprank2pid w ctx.mpi r 0).world

/-- In every state that `Inv` allows: the containment query for the pid of rank `r`
succeeds and reports `contained (pidOf r)`, and keeps `Inv`. -/
def query_succeeds (C : Collab W) (K : Consts) (ctx : quo_t) (type idx : Int)
    (Inv : W → Prop) (pidOf : Int → pid_t) (contained : pid_t → Bool) (r : Int) : Prop :=
  ∀ w, Inv w →
    (C.quo_hwloc_is_in_cpuset_by_type_id w ctx.hwloc type (pidOf r) (to_unsigned idx) 0).rc
      = K.QUO_SUCCESS ∧
    ((C.quo_hwloc_is_in_cpuset_by_type_id w ctx.hwloc type (pidOf r)
      (to_unsigned idx) 0).out ≠ 0 ↔ contained (pidOf r) = true) ∧
    Inv (C.quo_hwloc_is_in_cpuset_by_type_id w ctx.hwloc type (pidOf r)
      (to_unsigned idx) 0).world

/-- In every state that `Inv` allows: the growth of the buffer for rank `r` (to one
element more than the ranks selected below `r`) succeeds, and keeps `Inv`. -/
def growth_succeeds (C : Collab W) (K : Consts) (Inv : W → Prop) (pidOf : Int → pid_t)
    (contained : pid_t → Bool) (r : Int) : Prop :=
  ∀ w, Inv w →
    (C.realloc w ((((selected_ranks pidOf contained r).length : Int) + 1)
      * K.sizeof_int)).1 = true ∧
    Inv (C.realloc w ((((selected_ranks pidOf contained r).length : Int) + 1)
      * K.sizeof_int)).2

/-- Every call of the iterations of the ranks in `[0, B)` succeeds: the lookup, the
containment query, and the growth of the buffer for a rank whose query reports true. -/
def scan_succeeds (C : Collab W) (K : Consts) (ctx : quo_t) (type idx : Int)
    (Inv : W → Prop) (pidOf : Int → pid_t) (contained : pid_t → Bool) (B : Int) : Prop :=
  ∀ r, 0 ≤ r → r < B →
    lookup_succeeds C K ctx Inv pidOf r ∧
    query_succeeds C K ctx type idx Inv pidOf contained r ∧
    (contained (pidOf r) = true → growth_succeeds C K Inv pidOf contained r)

/-! ## The states the scan visits

The run of the scan on a given collaborator: the collaborators' state in which each
iteration starts and the ranks in the buffer at that point, the answers of the calls the
iteration makes there, and the calls themselves. -/

/-- The answer of the lookup of rank `r`, made where the iteration starts: `v` is the
collaborators' state together with the ranks in the buffer. -/
def lookup_at (C : Collab W) (ctx : quo_t) (v : W × List Int) (r : Int) : Reply W pid_t :=
  C.quo_mpi_smprank2pid v.1 ctx.mpi r 0

/-- The answer of the containment query of the iteration of rank `r`: it is made in the
state the lookup left, for the pid the lookup answered. -/
def query_at (C : Collab W) (ctx : quo_t) (type idx : Int) (v : W × List Int) (r : Int) :
    Reply W Int :=
  C.quo_hwloc_is_in_cpuset_by_type_id (lookup_at C ctx v r).world ctx.hwloc type
    (lookup_at C ctx v r).out (to_unsigned idx) 0

/-- The size the iteration asks `realloc` for: one element more than the buffer holds. -/
def growth_size (K : Consts) (v : W × List Int) : Int :=
  ((v.2.length : Int) + 1) * K.sizeof_int

/-- The answer of the growth of the buffer in the iteration of rank `r`: it is made in
the state the query left. -/
def growth_at (C : Collab W) (K : Consts) (ctx : quo_t) (type idx : Int) (v : W × List Int)
    (r : Int) : Bool × W :=
  C.realloc (query_at C ctx type idx v r).world (growth_size K v)

/-- Where the scan stands after the iteration of rank `r` that started at `v`, when the
calls of the iteration succeed: after the growth with `r` appended when the query
reports true, after the query otherwise. -/
def visit_step (C : Collab W) (K : Consts) (ctx : quo_t) (type idx : Int) (v : W × List Int)
    (r : Int) : W × List Int :=
  if (query_at C ctx type idx v r).out ≠ 0 then
    ((growth_at C K ctx type idx v r).2, v.2 ++ [r])
  else ((query_at C ctx type idx v r).world, v.2)

/-- Where the scan stands when it starts the iteration of rank `n`, having started the
one of rank 0 in the collaborators' state `w0` with an empty buffer. -/
def scan_visit (C : Collab W) (K : Consts) (ctx : quo_t) (type idx : Int) (w0 : W) :
    Nat → W × List Int
  | 0 => (w0, [])
  | n + 1 => visit_step C K ctx type idx (scan_visit C K ctx type idx w0 n) (n : Int)

/-- The calls of the iteration of rank `r` that starts at `v`, when they succeed. -/
def iter_events (C : Collab W) (K : Consts) (ctx : quo_t) (type idx : Int)
    (v : W × List Int) (r : Int) : List Event :=
  [Event.quo_mpi_smprank2pid ctx.mpi r,
    Event.quo_hwloc_is_in_cpuset_by_type_id ctx.hwloc type (lookup_at C ctx v r).out
      (to_unsigned idx)] ++
  if (query_at C ctx type idx v r).out ≠ 0 then [Event.realloc (growth_size K v)] else []

/-- The calls of the iterations of the ranks `0, ..., n - 1` of the run from `w0`. -/
def visit_events (C : Collab W) (K : Consts) (ctx : quo_t) (type idx : Int) (w0 : W) :
    Nat → List Event
  | 0 => []
  | n + 1 =>
    visit_events C K ctx type idx w0 n ++
      iter_events C K ctx type idx (scan_visit C K ctx type idx w0 n) (n : Int)

/-- Every call of the iteration of rank `r` that starts at `v` succeeds: the lookup, the
query, and the growth of the buffer when the query reports true. -/
def iter_succeeds (C : Collab W) (K : Consts) (ctx : quo_t) (type idx : Int)
    (v : W × List Int) (r : Int) : Prop :=
  (lookup_at C ctx v r).rc = K.QUO_SUCCESS ∧
  (query_at C ctx type idx v r).rc = K.QUO_SUCCESS ∧
  ((query_at C ctx type idx v r).out ≠ 0 → (growth_at C K ctx type idx v r).1 = true)

/-- The call of an iteration of the scan that fails. -/
inductive Stage where
  | lookup
  | query
  | growth
deriving DecidableEq, Repr

/-- The iteration of rank `r` that starts at `v` fails at `stage`, and `e` is the code
that goes with the failure: the calls before the stage succeed, and the call of the
stage fails, the lookup or the query by returning the code `e` other than
`QUO_SUCCESS`, the growth of the buffer by returning NULL, for which `e` is
`QUO_ERR_OOR`. -/
def iter_fails (C : Collab W) (K : Consts) (ctx : quo_t) (type idx : Int)
    (v : W × List Int) (r : Int) (e : Int) : Stage → Prop
  | .lookup => (lookup_at C ctx v r).rc = e ∧ e ≠ K.QUO_SUCCESS
  | .query =>
    (lookup_at C ctx v r).rc = K.QUO_SUCCESS ∧
    (query_at C ctx type idx v r).rc = e ∧ e ≠ K.QUO_SUCCESS
  | .growth =>
    (lookup_at C ctx v r).rc = K.QUO_SUCCESS ∧
    (query_at C ctx type idx v r).rc = K.QUO_SUCCESS ∧
    (query_at C ctx type idx v r).out ≠ 0 ∧
    (growth_at C K ctx type idx v r).1 = false ∧ e = K.QUO_ERR_OOR

/-- The calls of the iteration of rank `r` that starts at `v`, up to and including the
one that fails. -/
def fail_events (C : Collab W) (K : Consts) (ctx : quo_t) (type idx : Int)
    (v : W × List Int) (r : Int) : Stage → List Event
  | .lookup => [Event.quo_mpi_smprank2pid ctx.mpi r]
  | .query =>
    [Event.quo_mpi_smprank2pid ctx.mpi r,
      Event.quo_hwloc_is_in_cpuset_by_type_id ctx.hwloc type (lookup_at C ctx v r).out
        (to_unsigned idx)]
  | .growth =>
    [Event.quo_mpi_smprank2pid ctx.mpi r,
      Event.quo_hwloc_is_in_cpuset_by_type_id ctx.hwloc type (lookup_at C ctx v r).out
        (to_unsigned idx),
      Event.realloc (growth_size K v)]

/-! ## Concrete inputs

A collaborator, constants and states on which the routines can be evaluated. -/

/-- Values for the constants: the return codes are numbered from 0. -/
def demo_consts : Consts where
  QUO_SUCCESS := 0
  QUO_SUCCESS_ALREADY_DONE := 1
  QUO_ERR := 2
  QUO_ERR_OOR := 4
  QUO_ERR_INVLD_ARG := 5
  QUO_ERR_CALL_BEFORE_INIT := 6
  QUO_SOCKET := 1
  QUO_CORE := 2
  QUO_PU := 3
  QUO_ERR_PREFIX := "[quo] "
  sizeof_int := 4

/-- A collaborator whose state counts the calls made.  `hwloc_rc`, `mpi_rc` and
`init_rc` are what `quo_hwloc_construct`, `quo_mpi_construct` and `quo_mpi_init`
return; the node has three ranks, rank `r` has pid `100 + r`, the lookup of rank
`bad_rank` fails with code 9, and a pid is inside every object iff it is even. -/
def demo_collab (hwloc_rc mpi_rc init_rc : Int) (bad_rank : Int) : Collab Nat where
  calloc w := (some 7, w + 1)
  getpid w := (4242, w + 1)
  realloc w _ := (true, w + 1)
  quo_hwloc_construct w _ := ⟨hwloc_rc, if hwloc_rc = 0 then some 11 else none, w + 1⟩
  quo_mpi_construct w _ := ⟨mpi_rc, if mpi_rc = 0 then some 12 else none, w + 1⟩
  quo_hwloc_destruct w _ := ⟨0, (), w + 1⟩
  quo_mpi_destruct w _ := ⟨3, (), w + 1⟩
  quo_mpi_init w _ := ⟨init_rc, (), w + 1⟩
  quo_hwloc_node_topo_stringify w _ _ := ⟨0, some "machine", w + 1⟩
  quo_hwloc_get_nobjs_in_type_by_type w _ _ _ _ _ := ⟨0, 2, w + 1⟩
  quo_hwloc_is_in_cpuset_by_type_id w _ _ pid _ _ :=
    ⟨0, if pid % 2 = 0 then 1 else 0, w + 1⟩
  quo_hwloc_get_nobjs_by_type w _ _ _ := ⟨0, 4, w + 1⟩
  quo_hwloc_bound w _ _ _ := ⟨0, true, w + 1⟩
  quo_hwloc_stringify_cbind w _ _ _ := ⟨0, some "0x3", w + 1⟩
  quo_mpi_nnodes w _ _ := ⟨0, 1, w + 1⟩
  quo_mpi_nnoderanks w _ _ := ⟨0, 3, w + 1⟩
  quo_mpi_noderank w _ _ := ⟨0, 0, w + 1⟩
  quo_mpi_smprank2pid w _ rank old :=
    if rank = bad_rank then ⟨9, old, w + 1⟩ else ⟨0, 100 + rank, w + 1⟩
  quo_hwloc_bind_push w _ _ _ _ := ⟨0, (), w + 1⟩
  quo_hwloc_bind_pop w _ := ⟨0, (), w + 1⟩
  quo_mpi_ranks_on_node w _ _ _ := ⟨0, (3, some [0, 1, 2]), w + 1⟩

/-- The collaborator in which every construction, the init and every lookup succeed. -/
def demo_ok : Collab Nat := demo_collab 0 0 0 (-1)

/-- The collaborator `demo_ok`, except that `realloc` fails when it is called in the
state `bad_state` (the state counts the calls made). -/
def demo_realloc_fails (bad_state : Nat) : Collab Nat :=
  { demo_ok with realloc := fun w _ => (decide (w ≠ bad_state), w + 1) }

/-- A context as `quo_construct` leaves it, with both sub-handles. -/
def demo_ctx (initialized : Bool) : quo_t := ⟨initialized, 4242, some 11, some 12⟩

/-- A state with one context, at address 7. -/
def demo_state (initialized : Bool) : State Nat :=
  ⟨fun a => if a = 7 then some (demo_ctx initialized) else none, 0, []⟩

/-- A state with no context. -/
def empty_state : State Nat := ⟨fun _ => none, 0, []⟩

/-! ## Shared lemmas -/

theorem noinit_action_uninit {α : Type} (K : Consts) (func : String) (s : State W)
    (a : Nat) (ctx : quo_t) (out : α) (k : quo_t → Option (Res W α))
    (hq : s.heap a = some ctx) (hi : ctx.initialized = false) :
    noinit_action K func s (some a) out k =
      some ⟨K.QUO_ERR_CALL_BEFORE_INIT, out, noinit_msg_emit K func s⟩ := by
  simp [noinit_action, State.deref, hq, hi]

theorem noinit_action_init {α : Type} (K : Consts) (func : String) (s : State W)
    (a : Nat) (ctx : quo_t) (out : α) (k : quo_t → Option (Res W α))
    (hq : s.heap a = some ctx) (hi : ctx.initialized = true) :
    noinit_action K func s (some a) out k = k ctx := by
  simp [noinit_action, State.deref, hq, hi]

theorem noinit_action_null {α : Type} (K : Consts) (func : String) (s : State W)
    (out : α) (k : quo_t → Option (Res W α)) :
    noinit_action K func s none out k = none := by
  simp [noinit_action, State.deref]

/-- On a context whose flag is clear, a guarded routine that is given non-null output
pointers returns `QUO_ERR_CALL_BEFORE_INIT`, and all it does is emit the diagnostic. -/
theorem run_uninit (C : Collab W) (K : Consts) (s : State W) (a : Nat) (ctx : quo_t)
    (op : InitOp) (hq : s.heap a = some ctx) (hi : ctx.initialized = false)
    (hout : op.outs.has_null = false) :
    ∃ cells, op.run C K s (some a) =
      some ⟨K.QUO_ERR_CALL_BEFORE_INIT, cells, noinit_msg_emit K op.diagnosed_name s⟩ := by
  cases op with
  | quo_smpranks_in_type t i n o =>
    cases n with
    | none => simp [InitOp.outs, OutCells.has_null] at hout
    | some n =>
      cases o with
      | none => simp [InitOp.outs, OutCells.has_null] at hout
      | some o =>
        refine ⟨.arr (some 0) (some none), ?_⟩
        have hh : (noinit_msg_emit K "quo_nnoderanks" s).heap a = some ctx := hq
        by_cases hk : K.QUO_SUCCESS = K.QUO_ERR_CALL_BEFORE_INIT <;>
          simp [InitOp.run, quo_smpranks_in_type, quo_nnoderanks,
            noinit_action_uninit K _ s a ctx _ _ hq hi, Res.cells, smpranks_loop,
            smpranks_finish, InitOp.diagnosed_name, hk, hh]
  | _ =>
    simp [InitOp.run, quo_finalize, quo_node_topo_stringify, quo_get_nobjs_by_type,
      quo_get_nobjs_in_type_by_type, quo_cur_cpuset_in_type, quo_nsockets, quo_ncores,
      quo_npus, quo_bound, quo_stringify_cbind, quo_nnodes, quo_nnoderanks, quo_noderank,
      quo_bind_push, quo_bind_pop, quo_ranks_on_node,
      noinit_action_uninit K _ s a ctx _ _ hq hi, Res.cells, InitOp.diagnosed_name,
      InitOp.name]

theorem new_events_emit (K : Consts) (func : String) (s : State W) (rc : Int)
    (cells : OutCells) :
    new_events s ⟨rc, cells, noinit_msg_emit K func s⟩ =
      [Event.fprintf_stderr (noinit_fmt K) [func, "quo_init"]] := by
  simp [new_events, noinit_msg_emit, State.emit]

/-- With the flag set, a guarded routine that is given a NULL output pointer returns
`QUO_ERR_INVLD_ARG` and hands back the state and the cells as they were. -/
theorem run_null_out (C : Collab W) (K : Consts) (s : State W) (a : Nat) (ctx : quo_t)
    (op : InitOp) (hq : s.heap a = some ctx) (hi : ctx.initialized = true)
    (hnull : op.outs.has_null = true) :
    op.run C K s (some a) = some ⟨K.QUO_ERR_INVLD_ARG, op.outs, s⟩ := by
  cases op with
  | quo_finalize => simp [InitOp.outs, OutCells.has_null] at hnull
  | quo_bind_push p t i => simp [InitOp.outs, OutCells.has_null] at hnull
  | quo_bind_pop => simp [InitOp.outs, OutCells.has_null] at hnull
  | quo_smpranks_in_type t i n o =>
    cases n <;> cases o <;>
      simp [InitOp.outs, OutCells.has_null] at hnull <;>
      simp [InitOp.run, quo_smpranks_in_type, Res.cells, InitOp.outs]
  | quo_ranks_on_node n o =>
    cases n <;> cases o <;>
      simp [InitOp.outs, OutCells.has_null] at hnull <;>
      simp [InitOp.run, quo_ranks_on_node, noinit_action_init K _ s a ctx _ _ hq hi,
        Res.cells, InitOp.outs]
  | _ =>
    rename_i o
    cases o with
    | some v => simp [InitOp.outs, OutCells.has_null] at hnull
    | none =>
      simp [InitOp.run, quo_node_topo_stringify, quo_get_nobjs_by_type,
        quo_get_nobjs_in_type_by_type, quo_cur_cpuset_in_type, quo_nsockets, quo_ncores,
        quo_npus, quo_bound, quo_stringify_cbind, quo_nnodes, quo_nnoderanks, quo_noderank,
        noinit_action_init K _ s a ctx _ _ hq hi, Res.cells, InitOp.outs]

/-- What `quo_initialized` reports through a non-null output pointer on a live context. -/
theorem quo_initialized_reports (K : Consts) (s : State W) (a : Nat) (ctx : quo_t)
    (o : Int) (hq : s.heap a = some ctx) :
    quo_initialized K s (some a) (some o) =
      some ⟨K.QUO_SUCCESS, some (bool_to_int ctx.initialized), s⟩ := by
  simp [quo_initialized, hq]

/-! ## The claims -/

/-- C1: on a non-null context whose initialized flag is false, every operation that
requires init, called with non-null output pointers, returns `QUO_ERR_CALL_BEFORE_INIT`;
it leaves the contexts and the collaborators' state as they were, and the only thing it
does is emit one "called before quo_init" diagnostic, so it makes no call into the
topology or the node-group collaborator. -/
theorem call_before_init_guard (C : Collab W) (K : Consts) (s : State W) (a : Nat)
    (ctx : quo_t) (op : InitOp) (hq : s.heap a = some ctx)
    (hi : ctx.initialized = false) (hout : op.outs.has_null = false) :
    ∃ r, op.run C K s (some a) = some r ∧ r.rc = K.QUO_ERR_CALL_BEFORE_INIT ∧
      r.st.heap = s.heap ∧ r.st.world = s.world ∧
      new_events s r =
        [Event.fprintf_stderr (noinit_fmt K) [op.diagnosed_name, "quo_init"]] ∧
      ∀ e ∈ new_events s r, e.is_collab = false := by
  obtain ⟨cells, h⟩ := run_uninit C K s a ctx op hq hi hout
  refine ⟨_, h, rfl, rfl, rfl, new_events_emit K _ s _ _, ?_⟩
  intro e he
  rw [new_events_emit] at he
  simp at he
  subst he
  rfl

/-- C1 at a concrete input: `quo_smpranks_in_type` on an un-initialized context. -/
theorem call_before_init_guard_witness :
    (demo_state false).heap 7 = some (demo_ctx false) ∧
    ∃ r, (InitOp.quo_smpranks_in_type 1 1 (some 5) (some none)).run
        demo_ok demo_consts (demo_state false) (some 7) = some r ∧
      r.rc = demo_consts.QUO_ERR_CALL_BEFORE_INIT ∧
      r.st.heap = (demo_state false).heap ∧ r.st.world = (demo_state false).world ∧
      new_events (demo_state false) r =
        [Event.fprintf_stderr (noinit_fmt demo_consts) ["quo_nnoderanks", "quo_init"]] ∧
      ∀ e ∈ new_events (demo_state false) r, e.is_collab = false :=
  ⟨rfl, call_before_init_guard demo_ok demo_consts (demo_state false) 7
    (demo_ctx false) _ rfl rfl rfl⟩

/-- C7: on an initialized context, every query operation that takes an output pointer,
called with a required output pointer NULL, returns `QUO_ERR_INVLD_ARG` and hands back
the state (contexts, collaborators' state, trace of calls) and the output cells exactly
as they were; `quo_initialized` does the same. -/
theorem null_output_invalid_arg (C : Collab W) (K : Consts) (s : State W) (a : Nat)
    (ctx : quo_t) (hq : s.heap a = some ctx) (hi : ctx.initialized = true) :
    (∀ op : InitOp, op.outs.has_null = true →
      op.run C K s (some a) = some ⟨K.QUO_ERR_INVLD_ARG, op.outs, s⟩) ∧
    quo_initialized K s (some a) none = some ⟨K.QUO_ERR_INVLD_ARG, none, s⟩ := by
  refine ⟨fun op h => run_null_out C K s a ctx op hq hi h, ?_⟩
  simp [quo_initialized]

/-- C7 at a concrete input: `quo_ranks_on_node` with a NULL list pointer. -/
theorem null_output_invalid_arg_witness :
    (InitOp.quo_ranks_on_node (some 5) none).run demo_ok demo_consts
        (demo_state true) (some 7) =
      some ⟨demo_consts.QUO_ERR_INVLD_ARG, .arr (some 5) none, demo_state true⟩ :=
  (null_output_invalid_arg demo_ok demo_consts (demo_state true) 7
    (demo_ctx true) rfl rfl).1 _ rfl

/-- C6: on a non-null context that is not yet initialized, when `quo_mpi_init` fails
with code `e`, `quo_init` returns exactly `e` and leaves the contexts unchanged: the
flag is still false, `quo_initialized` reports 0, and every operation that requires init
(called with non-null output pointers) still returns `QUO_ERR_CALL_BEFORE_INIT`. -/
theorem quo_init_failure_keeps_uninitialized (C : Collab W) (K : Consts) (s : State W)
    (a : Nat) (ctx : quo_t) (e : Int) (hq : s.heap a = some ctx)
    (hi : ctx.initialized = false) (he : (C.quo_mpi_init s.world ctx.mpi).rc = e)
    (hfail : e ≠ K.QUO_SUCCESS) :
    ∃ r, quo_init C K s (some a) = some r ∧ r.rc = e ∧ r.st.heap = s.heap ∧
      r.st.heap a = some ctx ∧
      (∀ o, quo_initialized K r.st (some a) (some o) = some ⟨K.QUO_SUCCESS, some 0, r.st⟩) ∧
      ∀ op : InitOp, op.outs.has_null = false →
        ∃ r1, op.run C K r.st (some a) = some r1 ∧ r1.rc = K.QUO_ERR_CALL_BEFORE_INIT := by
  subst he
  have hne : ¬ K.QUO_SUCCESS = (C.quo_mpi_init s.world ctx.mpi).rc := fun h => hfail h.symm
  let s1 : State W := (s.call (Event.quo_mpi_init ctx.mpi)
    (C.quo_mpi_init s.world ctx.mpi).world).emit
      (Event.fprintf_stderr (failed_fmt K) ["quo_mpi_init"])
  have hq1 : s1.heap a = some ctx := hq
  refine ⟨⟨_, (), s1⟩, ?_, rfl, rfl, hq1, ?_, ?_⟩
  · simp [quo_init, hq, hi, hne, s1]
  · intro o
    rw [quo_initialized_reports K s1 a ctx o hq1, hi]
    rfl
  · intro op hout
    obtain ⟨cells, h⟩ := run_uninit C K s1 a ctx op hq1 hi hout
    exact ⟨_, h, rfl⟩

/-- C6 at a concrete input: `quo_mpi_init` fails with code 8. -/
theorem quo_init_failure_keeps_uninitialized_witness :
    ((demo_collab 0 0 8 (-1)).quo_mpi_init (demo_state false).world
      (demo_ctx false).mpi).rc = 8 ∧ (8 : Int) ≠ demo_consts.QUO_SUCCESS ∧
    ∃ r, quo_init (demo_collab 0 0 8 (-1)) demo_consts (demo_state false) (some 7) = some r ∧
      r.rc = 8 ∧ r.st.heap = (demo_state false).heap ∧
      r.st.heap 7 = some (demo_ctx false) ∧
      (∀ o, quo_initialized demo_consts r.st (some 7) (some o) =
        some ⟨demo_consts.QUO_SUCCESS, some 0, r.st⟩) ∧
      ∀ op : InitOp, op.outs.has_null = false →
        ∃ r1, op.run (demo_collab 0 0 8 (-1)) demo_consts r.st (some 7) = some r1 ∧
          r1.rc = demo_consts.QUO_ERR_CALL_BEFORE_INIT :=
  ⟨rfl, by decide,
    quo_init_failure_keeps_uninitialized (demo_collab 0 0 8 (-1)) demo_consts
      (demo_state false) 7 (demo_ctx false) 8 rfl rfl rfl (by decide)⟩

/-- C5: on a non-null context, `quo_destruct` attempts the teardown of each sub-handle
that is present, the topology handle first and the node-group resolver whatever the
first teardown returned, attempts none for an absent sub-handle, frees the context (and
no other), and returns `QUO_SUCCESS` when every attempted teardown returned
`QUO_SUCCESS`, otherwise `QUO_ERR`; with `QUO_ERR` distinct from `QUO_SUCCESS`, it
returns `QUO_SUCCESS` if and only if every attempted teardown did. -/
theorem quo_destruct_tears_down_each (C : Collab W) (K : Consts) (s : State W) (a : Nat)
    (ctx : quo_t) (hq : s.heap a = some ctx) :
    ∃ r, quo_destruct C K s (some a) = some r ∧
      r.st.trace = s.trace ++ ctx.hwloc.toList.map Event.quo_hwloc_destruct ++
        ctx.mpi.toList.map Event.quo_mpi_destruct ++ [Event.free a] ∧
      r.st.heap a = none ∧ (∀ b, b ≠ a → r.st.heap b = s.heap b) ∧
      r.rc = (if ∀ c ∈ teardown_codes C s.world ctx, c = K.QUO_SUCCESS
        then K.QUO_SUCCESS else K.QUO_ERR) ∧
      (K.QUO_ERR ≠ K.QUO_SUCCESS →
        (r.rc = K.QUO_SUCCESS ↔ ∀ c ∈ teardown_codes C s.world ctx, c = K.QUO_SUCCESS)) := by
  have key : ∃ r, quo_destruct C K s (some a) = some r ∧
      r.st.trace = s.trace ++ ctx.hwloc.toList.map Event.quo_hwloc_destruct ++
        ctx.mpi.toList.map Event.quo_mpi_destruct ++ [Event.free a] ∧
      r.st.heap a = none ∧ (∀ b, b ≠ a → r.st.heap b = s.heap b) ∧
      r.rc = (if ∀ c ∈ teardown_codes C s.world ctx, c = K.QUO_SUCCESS
        then K.QUO_SUCCESS else K.QUO_ERR) := by
    obtain ⟨ini, pid, hw, mp⟩ := ctx
    cases hw with
    | none =>
      cases mp with
      | none =>
        refine ⟨_, by simp [quo_destruct, hq]; rfl, ?_, ?_, ?_, ?_⟩
        · simp [State.emit, State.store]
        · simp [State.emit, State.store]
        · intro b hb
          simp [State.emit, State.store, Function.update, hb]
        · simp [teardown_codes]
      | some m =>
        refine ⟨_, by simp [quo_destruct, hq]; rfl, ?_, ?_, ?_, ?_⟩
        · simp [State.emit, State.store, State.call]
        · simp [State.emit, State.store, State.call]
        · intro b hb
          simp [State.emit, State.store, State.call, Function.update, hb]
        · by_cases h : K.QUO_SUCCESS = (C.quo_mpi_destruct s.world m).rc
          · simp [teardown_codes, h]
          · have h2 : ¬ (C.quo_mpi_destruct s.world m).rc = K.QUO_SUCCESS :=
              fun x => h x.symm
            simp [teardown_codes, h, h2]
    | some hh =>
      cases mp with
      | none =>
        refine ⟨_, by simp [quo_destruct, hq]; rfl, ?_, ?_, ?_, ?_⟩
        · simp [State.emit, State.store, State.call]
        · simp [State.emit, State.store, State.call]
        · intro b hb
          simp [State.emit, State.store, State.call, Function.update, hb]
        · by_cases h : K.QUO_SUCCESS = (C.quo_hwloc_destruct s.world hh).rc
          · simp [teardown_codes, h]
          · have h2 : ¬ (C.quo_hwloc_destruct s.world hh).rc = K.QUO_SUCCESS :=
              fun x => h x.symm
            simp [teardown_codes, h, h2]
      | some m =>
        refine ⟨_, by simp [quo_destruct, hq]; rfl, ?_, ?_, ?_, ?_⟩
        · simp [State.emit, State.store, State.call]
        · simp [State.emit, State.store, State.call]
        · intro b hb
          simp [State.emit, State.store, State.call, Function.update, hb]
        · by_cases h : K.QUO_SUCCESS = (C.quo_hwloc_destruct s.world hh).rc <;>
            by_cases h' : K.QUO_SUCCESS =
              (C.quo_mpi_destruct (C.quo_hwloc_destruct s.world hh).world m).rc
          · simp [teardown_codes, State.call, ← h, ← h']
          · have h2 : ¬ (C.quo_mpi_destruct (C.quo_hwloc_destruct s.world hh).world m).rc
                = K.QUO_SUCCESS := fun x => h' x.symm
            simp [teardown_codes, State.call, ← h, h', h2]
          · have h2 : ¬ (C.quo_hwloc_destruct s.world hh).rc = K.QUO_SUCCESS :=
              fun x => h x.symm
            simp [teardown_codes, State.call, h, ← h', h2]
          · have h2 : ¬ (C.quo_hwloc_destruct s.world hh).rc = K.QUO_SUCCESS :=
              fun x => h x.symm
            simp [teardown_codes, State.call, h, h', h2]
  obtain ⟨r, h1, h2, h3, h4, h5⟩ := key
  refine ⟨r, h1, h2, h3, h4, h5, ?_⟩
  intro hd
  rw [h5]
  constructor
  · intro h
    by_contra hc
    rw [if_neg hc] at h
    exact hd h
  · intro h
    rw [if_pos h]

/-- C5 at a concrete input: both sub-handles present, the topology teardown returns
`QUO_SUCCESS` and the node-group teardown returns 3, so the result is `QUO_ERR`. -/
theorem quo_destruct_tears_down_each_witness :
    (demo_state true).heap 7 = some (demo_ctx true) ∧
    ∃ r, quo_destruct demo_ok demo_consts (demo_state true) (some 7) = some r ∧
      r.st.trace = [Event.quo_hwloc_destruct 11, Event.quo_mpi_destruct 12, Event.free 7] ∧
      r.st.heap 7 = none ∧ r.rc = demo_consts.QUO_ERR := by
  obtain ⟨r, h1, h2, h3, _, h5, _⟩ :=
    quo_destruct_tears_down_each demo_ok demo_consts (demo_state true) 7 (demo_ctx true) rfl
  refine ⟨rfl, r, h1, ?_, h3, ?_⟩
  · rw [h2]
    rfl
  · rw [h5]
    simp [teardown_codes, demo_ok, demo_collab, demo_ctx, demo_consts]

/-- C4, the code at a failing input: `quo_mpi_construct` fails with code 8 after
`quo_hwloc_construct` succeeded.  `quo_construct` returns 8 and tears the context at
address 7 down through `quo_destruct` (the address is no longer allocated), but the
caller's handle holds that address and not NULL: `*q = NULL` is followed by
`*q = newq`. -/
theorem quo_construct_failure_hands_back_freed_context :
    (quo_construct (demo_collab 0 8 0 (-1)) demo_consts empty_state (some none)).map
        (fun r => (r.rc, r.out, r.st.heap 7, r.st.trace)) =
      some (8, some (some 7), none,
        [Event.calloc, Event.quo_hwloc_construct, Event.quo_mpi_construct,
          Event.fprintf_stderr (failed_fmt demo_consts) ["quo_mpi_construct"],
          Event.quo_hwloc_destruct 11, Event.free 7]) := by
  rfl

/-- C8, the code on a NULL context: `quo_init`, `quo_initialized`, `quo_destruct`,
`quo_finalize` and `quo_smpranks_in_type` return `QUO_ERR_INVLD_ARG` and leave the state
alone, and every other guarded routine reads `q->initialized` through the NULL pointer
before its NULL test, which is undefined behaviour (`none`). -/
theorem null_context_guard_order (C : Collab W) (K : Consts) (s : State W)
    (op : InitOp) (o : Ptr Int) :
    quo_init C K s none = some ⟨K.QUO_ERR_INVLD_ARG, (), s⟩ ∧
    quo_initialized K s none o = some ⟨K.QUO_ERR_INVLD_ARG, o, s⟩ ∧
    quo_destruct C K s none = some ⟨K.QUO_ERR_INVLD_ARG, (), s⟩ ∧
    op.run C K s none =
      if op.null_check_first then some ⟨K.QUO_ERR_INVLD_ARG, op.outs, s⟩ else none := by
  refine ⟨rfl, ?_, rfl, ?_⟩
  · cases o <;> rfl
  · cases op <;>
      simp [InitOp.run, InitOp.null_check_first, InitOp.outs, Res.cells, quo_finalize,
        quo_smpranks_in_type, quo_node_topo_stringify, quo_get_nobjs_by_type,
        quo_get_nobjs_in_type_by_type, quo_cur_cpuset_in_type, quo_nsockets, quo_ncores,
        quo_npus, quo_bound, quo_stringify_cbind, quo_nnodes, quo_nnoderanks, quo_noderank,
        quo_bind_push, quo_bind_pop, quo_ranks_on_node, noinit_action_null]

/-- C9, the code at a failing input: `quo_smpranks_in_type` on an un-initialized
context returns `QUO_ERR_CALL_BEFORE_INIT` and emits one diagnostic, whose function name
is `quo_nnoderanks` (the guard that fires is the one of the routine it calls). -/
theorem quo_smpranks_in_type_diagnostic_names_callee :
    (quo_smpranks_in_type demo_ok demo_consts (demo_state false) (some 7) 1 1 (some 5)
        (some none)).map (fun r => (r.rc, r.st.trace)) =
      some (demo_consts.QUO_ERR_CALL_BEFORE_INIT,
        [Event.fprintf_stderr (noinit_fmt demo_consts) ["quo_nnoderanks", "quo_init"]]) := by
  rfl

theorem selected_ranks_succ (pidOf : Int → pid_t) (contained : pid_t → Bool) (i : Nat) :
    selected_ranks pidOf contained ((i : Int) + 1) =
      selected_ranks pidOf contained (i : Int) ++
        (if contained (pidOf (i : Int)) then [(i : Int)] else []) := by
  have h : ((i : Int) + 1).toNat = i + 1 := by omega
  simp only [selected_ranks, h, Int.toNat_ofNat, List.range_succ, List.map_append,
    List.filter_append, List.map_cons, List.map_nil]
  by_cases hc : contained (pidOf (i : Int)) = true <;> simp [List.filter, hc]

theorem mem_selected_ranks (pidOf : Int → pid_t) (contained : pid_t → Bool) (B x : Int) :
    x ∈ selected_ranks pidOf contained B ↔ 0 ≤ x ∧ x < B ∧ contained (pidOf x) = true := by
  simp only [selected_ranks, List.mem_filter, List.mem_map, List.mem_range]
  constructor
  · rintro ⟨⟨i, hi, rfl⟩, hc⟩
    exact ⟨by omega, by omega, hc⟩
  · rintro ⟨h0, hB, hc⟩
    exact ⟨⟨x.toNat, by omega, by omega⟩, hc⟩

theorem selected_ranks_sorted (pidOf : Int → pid_t) (contained : pid_t → Bool) (B : Int) :
    (selected_ranks pidOf contained B).Pairwise (· < ·) := by
  unfold selected_ranks
  apply List.Pairwise.filter
  rw [List.pairwise_map]
  exact (List.pairwise_lt_range _).imp (fun h => by exact_mod_cast h)

theorem realloc_buf_set (l : List Int) (x : Int) :
    (realloc_buf (arr_of l) (l.length + 1)).set l.length x = l ++ [x] := by
  have h : (arr_of l).getD [] = l := by
    cases l <;> simp [arr_of]
  simp [realloc_buf, h, List.take_of_length_le]

/-- One iteration of the loop in which the lookup and the query succeed, the query
reports true and the growth succeeds: the rank is appended. -/
theorem smpranks_loop_step_selected (C : Collab W) (K : Consts) (ctx : quo_t)
    (type idx : Int) (n : Nat) (rank : Int) (L : SmpLocals) (s : State W)
    (hx : (C.quo_mpi_smprank2pid s.world ctx.mpi rank 0).rc = K.QUO_SUCCESS)
    (hy : (C.quo_hwloc_is_in_cpuset_by_type_id
      (C.quo_mpi_smprank2pid s.world ctx.mpi rank 0).world ctx.hwloc type
      (C.quo_mpi_smprank2pid s.world ctx.mpi rank 0).out (to_unsigned idx) 0).rc
        = K.QUO_SUCCESS)
    (hin : (C.quo_hwloc_is_in_cpuset_by_type_id
      (C.quo_mpi_smprank2pid s.world ctx.mpi rank 0).world ctx.hwloc type
      (C.quo_mpi_smprank2pid s.world ctx.mpi rank 0).out (to_unsigned idx) 0).out ≠ 0)
    (hz : (C.realloc (C.quo_hwloc_is_in_cpuset_by_type_id
      (C.quo_mpi_smprank2pid s.world ctx.mpi rank 0).world ctx.hwloc type
      (C.quo_mpi_smprank2pid s.world ctx.mpi rank 0).out (to_unsigned idx) 0).world
      ((L.nsmpranks + 1) * K.sizeof_int)).1 = true) :
    smpranks_loop C K ctx type idx (n + 1) rank L s =
      smpranks_loop C K ctx type idx n (rank + 1)
        ⟨K.QUO_SUCCESS, L.nsmpranks + 1,
          some ((realloc_buf L.smpranks (L.nsmpranks + 1).toNat).set L.nsmpranks.toNat rank)⟩
        ⟨s.heap,
          (C.realloc (C.quo_hwloc_is_in_cpuset_by_type_id
            (C.quo_mpi_smprank2pid s.world ctx.mpi rank 0).world ctx.hwloc type
            (C.quo_mpi_smprank2pid s.world ctx.mpi rank 0).out (to_unsigned idx) 0).world
            ((L.nsmpranks + 1) * K.sizeof_int)).2,
          s.trace ++ [Event.quo_mpi_smprank2pid ctx.mpi rank,
            Event.quo_hwloc_is_in_cpuset_by_type_id ctx.hwloc type
              (C.quo_mpi_smprank2pid s.world ctx.mpi rank 0).out (to_unsigned idx),
            Event.realloc ((L.nsmpranks + 1) * K.sizeof_int)]⟩ := by
  rw [smpranks_loop]
  simp [State.call, hx, hy, hin, hz]

/-- One iteration of the loop in which the lookup and the query succeed and the query
reports false: the rank is skipped. -/
theorem smpranks_loop_step_skipped (C : Collab W) (K : Consts) (ctx : quo_t)
    (type idx : Int) (n : Nat) (rank : Int) (L : SmpLocals) (s : State W)
    (hx : (C.quo_mpi_smprank2pid s.world ctx.mpi rank 0).rc = K.QUO_SUCCESS)
    (hy : (C.quo_hwloc_is_in_cpuset_by_type_id
      (C.quo_mpi_smprank2pid s.world ctx.mpi rank 0).world ctx.hwloc type
      (C.quo_mpi_smprank2pid s.world ctx.mpi rank 0).out (to_unsigned idx) 0).rc
        = K.QUO_SUCCESS)
    (hin : (C.quo_hwloc_is_in_cpuset_by_type_id
      (C.quo_mpi_smprank2pid s.world ctx.mpi rank 0).world ctx.hwloc type
      (C.quo_mpi_smprank2pid s.world ctx.mpi rank 0).out (to_unsigned idx) 0).out = 0) :
    smpranks_loop C K ctx type idx (n + 1) rank L s =
      smpranks_loop C K ctx type idx n (rank + 1)
        ⟨K.QUO_SUCCESS, L.nsmpranks, L.smpranks⟩
        ⟨s.heap,
          (C.quo_hwloc_is_in_cpuset_by_type_id
            (C.quo_mpi_smprank2pid s.world ctx.mpi rank 0).world ctx.hwloc type
            (C.quo_mpi_smprank2pid s.world ctx.mpi rank 0).out (to_unsigned idx) 0).world,
          s.trace ++ [Event.quo_mpi_smprank2pid ctx.mpi rank,
            Event.quo_hwloc_is_in_cpuset_by_type_id ctx.hwloc type
              (C.quo_mpi_smprank2pid s.world ctx.mpi rank 0).out (to_unsigned idx)]⟩ := by
  rw [smpranks_loop]
  simp [State.call, hx, hy, hin]

/-- The loop over a stretch of `k` ranks on which every call succeeds: it reaches the
rank after the stretch with the selected ranks in the buffer, having made exactly the
calls of those iterations. -/
theorem smpranks_loop_prefix (C : Collab W) (K : Consts) (ctx : quo_t) (type idx : Int)
    (Inv : W → Prop) (pidOf : Int → pid_t) (contained : pid_t → Bool) (B : Int)
    (t0 : List Event) (hscan : scan_succeeds C K ctx type idx Inv pidOf contained B)
    (k : Nat) :
    ∀ (i m : Nat) (L : SmpLocals) (s : State W),
      ((i + k : Nat) : Int) ≤ B → Inv s.world →
      L.nsmpranks = ((selected_ranks pidOf contained (i : Int)).length : Int) →
      L.smpranks = arr_of (selected_ranks pidOf contained (i : Int)) →
      s.trace = t0 ++ scan_events K ctx type idx pidOf contained i →
      ∃ (L' : SmpLocals) (s' : State W),
        smpranks_loop C K ctx type idx (m + k) (i : Int) L s =
          smpranks_loop C K ctx type idx m ((i + k : Nat) : Int) L' s' ∧
        Inv s'.world ∧ s'.heap = s.heap ∧
        s'.trace = t0 ++ scan_events K ctx type idx pidOf contained (i + k) ∧
        L'.nsmpranks =
          ((selected_ranks pidOf contained ((i + k : Nat) : Int)).length : Int) ∧
        L'.smpranks = arr_of (selected_ranks pidOf contained ((i + k : Nat) : Int)) ∧
        L'.rc = if k = 0 then L.rc else K.QUO_SUCCESS := by
  induction k with
  | zero =>
    intro i m L s _ hI hn hb ht
    exact ⟨L, s, rfl, hI, rfl, ht, hn, hb, rfl⟩
  | succ k ih =>
    intro i m L s hB hI hn hb ht
    have hi0 : (0 : Int) ≤ (i : Int) := Int.natCast_nonneg i
    have hiB : (i : Int) < B := by
      push_cast at hB
      omega
    obtain ⟨hlook, hquery, hgrow⟩ := hscan (i : Int) hi0 hiB
    obtain ⟨h1, h2, h3⟩ := hlook s.world hI
    obtain ⟨h4, h5, h6⟩ := hquery _ h3
    have hB' : ((i + 1 + k : Nat) : Int) ≤ B := by
      push_cast at hB ⊢
      omega
    have hcast : ((i + 1 : Nat) : Int) = (i : Int) + 1 := by push_cast; rfl
    have hidx : i + 1 + k = i + (k + 1) := by omega
    by_cases hc : contained (pidOf (i : Int)) = true
    · obtain ⟨h7, h8⟩ := hgrow hc _ h6
      rw [← hn] at h7 h8
      have hstep := smpranks_loop_step_selected C K ctx type idx (m + k) (i : Int) L s h1
        (by rw [h2]; exact h4) (by rw [h2]; exact h5.mpr hc) (by rw [h2]; exact h7)
      rw [h2] at hstep
      have hsel : selected_ranks pidOf contained ((i + 1 : Nat) : Int) =
          selected_ranks pidOf contained (i : Int) ++ [(i : Int)] := by
        rw [hcast, selected_ranks_succ, if_pos hc]
      obtain ⟨L', s', e1, e2, e3, e4, e5, e6, e7⟩ := ih (i + 1) m
        ⟨K.QUO_SUCCESS, L.nsmpranks + 1,
          some ((realloc_buf L.smpranks (L.nsmpranks + 1).toNat).set L.nsmpranks.toNat
            (i : Int))⟩
        ⟨s.heap,
          (C.realloc (C.quo_hwloc_is_in_cpuset_by_type_id
            (C.quo_mpi_smprank2pid s.world ctx.mpi (i : Int) 0).world ctx.hwloc type
            (pidOf (i : Int)) (to_unsigned idx) 0).world
            ((L.nsmpranks + 1) * K.sizeof_int)).2,
          s.trace ++ [Event.quo_mpi_smprank2pid ctx.mpi (i : Int),
            Event.quo_hwloc_is_in_cpuset_by_type_id ctx.hwloc type (pidOf (i : Int))
              (to_unsigned idx),
            Event.realloc ((L.nsmpranks + 1) * K.sizeof_int)]⟩ hB' h8
        (by
          show L.nsmpranks + 1 = _
          rw [hsel, hn]
          simp)
        (by
          show some ((realloc_buf L.smpranks (L.nsmpranks + 1).toNat).set
            L.nsmpranks.toNat (i : Int)) = _
          rw [hsel, hb, hn]
          have hl : ((selected_ranks pidOf contained (i : Int)).length : Int).toNat
              = (selected_ranks pidOf contained (i : Int)).length := by omega
          have hl1 : (((selected_ranks pidOf contained (i : Int)).length : Int) + 1).toNat
              = (selected_ranks pidOf contained (i : Int)).length + 1 := by omega
          simp only [hl, hl1, realloc_buf_set]
          simp [arr_of])
        (by
          show s.trace ++ [_, _, _] = _
          simp only [scan_events, rank_events, if_pos hc, ht, hn]
          simp [List.append_assoc])
      refine ⟨L', s', ?_, e2, e3, ?_, ?_, ?_, by simpa using e7⟩
      · rw [← hcast] at hstep
        rw [← hidx]
        exact hstep.trans e1
      · rw [← hidx]; exact e4
      · rw [← hidx]; exact e5
      · rw [← hidx]; exact e6
    · have hc' : contained (pidOf (i : Int)) = false := by simpa using hc
      have hout : (C.quo_hwloc_is_in_cpuset_by_type_id
          (C.quo_mpi_smprank2pid s.world ctx.mpi (i : Int) 0).world ctx.hwloc type
          (pidOf (i : Int)) (to_unsigned idx) 0).out = 0 := by
        by_contra hne
        exact hc (h5.mp hne)
      have hstep := smpranks_loop_step_skipped C K ctx type idx (m + k) (i : Int) L s h1
        (by rw [h2]; exact h4) (by rw [h2]; exact hout)
      rw [h2] at hstep
      have hsel : selected_ranks pidOf contained ((i + 1 : Nat) : Int) =
          selected_ranks pidOf contained (i : Int) := by
        rw [hcast, selected_ranks_succ, hc']
        simp
      obtain ⟨L', s', e1, e2, e3, e4, e5, e6, e7⟩ := ih (i + 1) m
        ⟨K.QUO_SUCCESS, L.nsmpranks, L.smpranks⟩
        ⟨s.heap,
          (C.quo_hwloc_is_in_cpuset_by_type_id
            (C.quo_mpi_smprank2pid s.world ctx.mpi (i : Int) 0).world ctx.hwloc type
            (pidOf (i : Int)) (to_unsigned idx) 0).world,
          s.trace ++ [Event.quo_mpi_smprank2pid ctx.mpi (i : Int),
            Event.quo_hwloc_is_in_cpuset_by_type_id ctx.hwloc type (pidOf (i : Int))
              (to_unsigned idx)]⟩ hB' h6
        (by
          show L.nsmpranks = _
          rw [hsel, hn])
        (by
          show L.smpranks = _
          rw [hsel, hb])
        (by
          show s.trace ++ [_, _] = _
          simp only [scan_events, rank_events, hc', ht]
          simp [List.append_assoc])
      refine ⟨L', s', ?_, e2, e3, ?_, ?_, ?_, by simpa using e7⟩
      · rw [← hcast] at hstep
        rw [← hidx]
        exact hstep.trans e1
      · rw [← hidx]; exact e4
      · rw [← hidx]; exact e5
      · rw [← hidx]; exact e6

/-- On an initialized context whose rank-count query succeeds, `quo_smpranks_in_type`
is the loop over the reported number of ranks followed by the common exit. -/
theorem quo_smpranks_in_type_unfold (C : Collab W) (K : Consts) (s : State W) (a : Nat)
    (ctx : quo_t) (type idx n0 : Int) (l0 : IntArr) (hq : s.heap a = some ctx)
    (hi : ctx.initialized = true)
    (hN : (C.quo_mpi_nnoderanks s.world ctx.mpi 0).rc = K.QUO_SUCCESS) :
    quo_smpranks_in_type C K s (some a) type idx (some n0) (some l0) =
      some (smpranks_finish K
        (smpranks_loop C K ctx type idx (C.quo_mpi_nnoderanks s.world ctx.mpi 0).out.toNat 0
          ⟨K.QUO_SUCCESS, 0, none⟩
          ⟨s.heap, (C.quo_mpi_nnoderanks s.world ctx.mpi 0).world,
            s.trace ++ [Event.quo_mpi_nnoderanks ctx.mpi]⟩)) := by
  have hh : (s.call (Event.quo_mpi_nnoderanks ctx.mpi)
      (C.quo_mpi_nnoderanks s.world ctx.mpi 0).world).heap a = some ctx := hq
  simp [quo_smpranks_in_type, quo_nnoderanks, noinit_action_init K _ s a ctx _ _ hq hi,
    hN, hh, smpranks_finish]
  simp [State.call]

theorem selected_ranks_toNat (pidOf : Int → pid_t) (contained : pid_t → Bool) (N : Int) :
    selected_ranks pidOf contained ((N.toNat : Nat) : Int) =
      selected_ranks pidOf contained N := by
  have h : ((N.toNat : Nat) : Int).toNat = N.toNat := by omega
  simp only [selected_ranks, h]

theorem scan_succeeds_toNat (C : Collab W) (K : Consts) (ctx : quo_t) (type idx : Int)
    (Inv : W → Prop) (pidOf : Int → pid_t) (contained : pid_t → Bool) (N : Int)
    (h : scan_succeeds C K ctx type idx Inv pidOf contained N) :
    scan_succeeds C K ctx type idx Inv pidOf contained ((N.toNat : Nat) : Int) := by
  intro r h0 hr
  exact h r h0 (by omega)

/-- C3: on an initialized context for which `quo_mpi_nnoderanks` reports `N`, when every
rank-to-pid lookup and every containment query for the ranks `0..N-1` succeeds and
every growth of the result buffer succeeds, `quo_smpranks_in_type` returns
`QUO_SUCCESS` and hands out the list `selected_ranks`, with its length as the count (for
the empty list the pointer is NULL and the count 0).  That list holds exactly the ranks
`r` in `[0, N)` whose pid's containment query reports true, in strictly increasing order
(so each once).  The contexts are untouched, and the calls made are the rank-count query
followed by those of the iterations of the ranks `0..N-1`. -/
theorem quo_smpranks_in_type_selects (C : Collab W) (K : Consts) (s : State W) (a : Nat)
    (ctx : quo_t) (type idx n0 : Int) (l0 : IntArr) (N : Int) (Inv : W → Prop)
    (pidOf : Int → pid_t) (contained : pid_t → Bool)
    (hq : s.heap a = some ctx) (hi : ctx.initialized = true)
    (hN : (C.quo_mpi_nnoderanks s.world ctx.mpi 0).rc = K.QUO_SUCCESS)
    (hNv : (C.quo_mpi_nnoderanks s.world ctx.mpi 0).out = N)
    (hI : Inv (C.quo_mpi_nnoderanks s.world ctx.mpi 0).world)
    (hscan : scan_succeeds C K ctx type idx Inv pidOf contained N) :
    ∃ r, quo_smpranks_in_type C K s (some a) type idx (some n0) (some l0) = some r ∧
      r.rc = K.QUO_SUCCESS ∧
      r.out = (some ((selected_ranks pidOf contained N).length : Int),
        some (arr_of (selected_ranks pidOf contained N))) ∧
      (∀ x, x ∈ selected_ranks pidOf contained N ↔
        0 ≤ x ∧ x < N ∧ contained (pidOf x) = true) ∧
      (selected_ranks pidOf contained N).Pairwise (· < ·) ∧
      r.st.heap = s.heap ∧
      r.st.trace = s.trace ++ [Event.quo_mpi_nnoderanks ctx.mpi] ++
        scan_events K ctx type idx pidOf contained N.toNat := by
  obtain ⟨L', s', e1, _, e3, e4, e5, e6, e7⟩ :=
    smpranks_loop_prefix C K ctx type idx Inv pidOf contained ((N.toNat : Nat) : Int)
      (s.trace ++ [Event.quo_mpi_nnoderanks ctx.mpi])
      (scan_succeeds_toNat C K ctx type idx Inv pidOf contained N hscan) N.toNat 0 0
      ⟨K.QUO_SUCCESS, 0, none⟩
      ⟨s.heap, (C.quo_mpi_nnoderanks s.world ctx.mpi 0).world,
        s.trace ++ [Event.quo_mpi_nnoderanks ctx.mpi]⟩
      (by simp) hI (by simp [selected_ranks]) (by simp [selected_ranks, arr_of])
      (by simp [scan_events])
  simp only [Nat.zero_add, Nat.cast_zero, smpranks_loop] at e1
  simp only [Nat.zero_add] at e4 e5 e6
  rw [selected_ranks_toNat] at e5 e6
  have hrc : L'.rc = K.QUO_SUCCESS := by
    rw [e7]
    split <;> rfl
  refine ⟨_, quo_smpranks_in_type_unfold C K s a ctx type idx n0 l0 hq hi hN, ?_, ?_,
    mem_selected_ranks pidOf contained N, selected_ranks_sorted pidOf contained N, ?_, ?_⟩
  · rw [hNv, e1]
    exact hrc
  · rw [hNv, e1]
    simp [smpranks_finish, e5, e6]
  · rw [hNv, e1]
    simp [smpranks_finish, hrc, e3]
  · rw [hNv, e1]
    simp [smpranks_finish, hrc, e4]

/-- C3 at a concrete input: three ranks with the pids 100, 101 and 102, of which the
even ones are inside the object; the ranks handed out are 0 and 2. -/
theorem quo_smpranks_in_type_selects_witness :
    ∃ r, quo_smpranks_in_type demo_ok demo_consts (demo_state true) (some 7) 1 1 (some 5)
        (some none) = some r ∧
      r.rc = demo_consts.QUO_SUCCESS ∧ r.out = (some 2, some (some [0, 2])) := by
  obtain ⟨r, h1, h2, h3, _⟩ :=
    quo_smpranks_in_type_selects demo_ok demo_consts (demo_state true) 7 (demo_ctx true)
      1 1 5 none 3 (fun _ => True) (fun r => 100 + r) (fun p => p % 2 = 0) rfl rfl rfl rfl
      trivial
      (by
        intro r h0 h3
        refine ⟨fun w _ => ⟨?_, ?_, trivial⟩, fun w _ => ⟨rfl, ?_, trivial⟩,
          fun _ w _ => ⟨rfl, trivial⟩⟩
        · have : r ≠ -1 := by omega
          simp [demo_ok, demo_collab, this, demo_consts]
        · have : r ≠ -1 := by omega
          simp [demo_ok, demo_collab, this]
        · simp [demo_ok, demo_collab])
  refine ⟨r, h1, h2, ?_⟩
  rw [h3]
  decide

/-- An iteration whose lookup fails leaves the loop with the lookup's code. -/
theorem smpranks_loop_fail_lookup (C : Collab W) (K : Consts) (ctx : quo_t)
    (type idx : Int) (n : Nat) (rank : Int) (L : SmpLocals) (s : State W)
    (hx : (C.quo_mpi_smprank2pid s.world ctx.mpi rank 0).rc ≠ K.QUO_SUCCESS) :
    smpranks_loop C K ctx type idx (n + 1) rank L s =
      (false, ⟨(C.quo_mpi_smprank2pid s.world ctx.mpi rank 0).rc, L.nsmpranks, L.smpranks⟩,
        ⟨s.heap, (C.quo_mpi_smprank2pid s.world ctx.mpi rank 0).world,
          s.trace ++ [Event.quo_mpi_smprank2pid ctx.mpi rank]⟩) := by
  have hx' : ¬ K.QUO_SUCCESS = (C.quo_mpi_smprank2pid s.world ctx.mpi rank 0).rc :=
    fun h => hx h.symm
  rw [smpranks_loop]
  simp [State.call, hx']

/-- An iteration whose containment query fails leaves the loop with the query's code. -/
theorem smpranks_loop_fail_query (C : Collab W) (K : Consts) (ctx : quo_t)
    (type idx : Int) (n : Nat) (rank : Int) (L : SmpLocals) (s : State W)
    (hx : (C.quo_mpi_smprank2pid s.world ctx.mpi rank 0).rc = K.QUO_SUCCESS)
    (hy : (C.quo_hwloc_is_in_cpuset_by_type_id
      (C.quo_mpi_smprank2pid s.world ctx.mpi rank 0).world ctx.hwloc type
      (C.quo_mpi_smprank2pid s.world ctx.mpi rank 0).out (to_unsigned idx) 0).rc
        ≠ K.QUO_SUCCESS) :
    smpranks_loop C K ctx type idx (n + 1) rank L s =
      (false,
        ⟨(C.quo_hwloc_is_in_cpuset_by_type_id
          (C.quo_mpi_smprank2pid s.world ctx.mpi rank 0).world ctx.hwloc type
          (C.quo_mpi_smprank2pid s.world ctx.mpi rank 0).out (to_unsigned idx) 0).rc,
          L.nsmpranks, L.smpranks⟩,
        ⟨s.heap,
          (C.quo_hwloc_is_in_cpuset_by_type_id
            (C.quo_mpi_smprank2pid s.world ctx.mpi rank 0).world ctx.hwloc type
            (C.quo_mpi_smprank2pid s.world ctx.mpi rank 0).out (to_unsigned idx) 0).world,
          s.trace ++ [Event.quo_mpi_smprank2pid ctx.mpi rank,
            Event.quo_hwloc_is_in_cpuset_by_type_id ctx.hwloc type
              (C.quo_mpi_smprank2pid s.world ctx.mpi rank 0).out (to_unsigned idx)]⟩) := by
  have hy' : ¬ K.QUO_SUCCESS = (C.quo_hwloc_is_in_cpuset_by_type_id
      (C.quo_mpi_smprank2pid s.world ctx.mpi rank 0).world ctx.hwloc type
      (C.quo_mpi_smprank2pid s.world ctx.mpi rank 0).out (to_unsigned idx) 0).rc :=
    fun h => hy h.symm
  rw [smpranks_loop]
  simp [State.call, hx, hy']

/-- An iteration whose growth of the buffer fails leaves the loop with `QUO_ERR_OOR`. -/
theorem smpranks_loop_fail_growth (C : Collab W) (K : Consts) (ctx : quo_t)
    (type idx : Int) (n : Nat) (rank : Int) (L : SmpLocals) (s : State W)
    (hx : (C.quo_mpi_smprank2pid s.world ctx.mpi rank 0).rc = K.QUO_SUCCESS)
    (hy : (C.quo_hwloc_is_in_cpuset_by_type_id
      (C.quo_mpi_smprank2pid s.world ctx.mpi rank 0).world ctx.hwloc type
      (C.quo_mpi_smprank2pid s.world ctx.mpi rank 0).out (to_unsigned idx) 0).rc
        = K.QUO_SUCCESS)
    (hin : (C.quo_hwloc_is_in_cpuset_by_type_id
      (C.quo_mpi_smprank2pid s.world ctx.mpi rank 0).world ctx.hwloc type
      (C.quo_mpi_smprank2pid s.world ctx.mpi rank 0).out (to_unsigned idx) 0).out ≠ 0)
    (hz : (C.realloc (C.quo_hwloc_is_in_cpuset_by_type_id
      (C.quo_mpi_smprank2pid s.world ctx.mpi rank 0).world ctx.hwloc type
      (C.quo_mpi_smprank2pid s.world ctx.mpi rank 0).out (to_unsigned idx) 0).world
      ((L.nsmpranks + 1) * K.sizeof_int)).1 = false) :
    smpranks_loop C K ctx type idx (n + 1) rank L s =
      (false, ⟨K.QUO_ERR_OOR, L.nsmpranks, L.smpranks⟩,
        ⟨s.heap,
          (C.realloc (C.quo_hwloc_is_in_cpuset_by_type_id
            (C.quo_mpi_smprank2pid s.world ctx.mpi rank 0).world ctx.hwloc type
            (C.quo_mpi_smprank2pid s.world ctx.mpi rank 0).out (to_unsigned idx) 0).world
            ((L.nsmpranks + 1) * K.sizeof_int)).2,
          s.trace ++ [Event.quo_mpi_smprank2pid ctx.mpi rank,
            Event.quo_hwloc_is_in_cpuset_by_type_id ctx.hwloc type
              (C.quo_mpi_smprank2pid s.world ctx.mpi rank 0).out (to_unsigned idx),
            Event.realloc ((L.nsmpranks + 1) * K.sizeof_int)]⟩) := by
  rw [smpranks_loop]
  simp [State.call, hx, hy, hin, hz]

theorem arr_of_isSome (l : List Int) : (arr_of l).isSome = true ↔ l ≠ [] := by
  cases l <;> simp [arr_of]

/-- For every collaborator, the loop leaves the contexts alone, and when it runs to its
end after it was entered with `rc = QUO_SUCCESS`, `rc` is `QUO_SUCCESS`. -/
theorem smpranks_loop_outcome (C : Collab W) (K : Consts) (ctx : quo_t) (type idx : Int)
    (n : Nat) :
    ∀ (rank : Int) (L : SmpLocals) (s : State W),
      (smpranks_loop C K ctx type idx n rank L s).2.2.heap = s.heap ∧
      ((smpranks_loop C K ctx type idx n rank L s).1 = true → L.rc = K.QUO_SUCCESS →
        (smpranks_loop C K ctx type idx n rank L s).2.1.rc = K.QUO_SUCCESS) := by
  induction n with
  | zero =>
    intro rank L s
    exact ⟨rfl, fun _ h => h⟩
  | succ n ih =>
    intro rank L s
    rw [smpranks_loop]
    by_cases h1 : K.QUO_SUCCESS = (C.quo_mpi_smprank2pid s.world ctx.mpi rank 0).rc
    · by_cases h2 : K.QUO_SUCCESS = (C.quo_hwloc_is_in_cpuset_by_type_id
          (C.quo_mpi_smprank2pid s.world ctx.mpi rank 0).world ctx.hwloc type
          (C.quo_mpi_smprank2pid s.world ctx.mpi rank 0).out (to_unsigned idx) 0).rc
      · by_cases h3 : (C.quo_hwloc_is_in_cpuset_by_type_id
            (C.quo_mpi_smprank2pid s.world ctx.mpi rank 0).world ctx.hwloc type
            (C.quo_mpi_smprank2pid s.world ctx.mpi rank 0).out (to_unsigned idx) 0).out = 0
        · simp only [State.call, ← h1, ← h2, h3, ne_eq, not_true_eq_false, if_false]
          exact ⟨(ih _ _ _).1, fun hc _ => (ih _ _ _).2 hc rfl⟩
        · by_cases h4 : (C.realloc (C.quo_hwloc_is_in_cpuset_by_type_id
              (C.quo_mpi_smprank2pid s.world ctx.mpi rank 0).world ctx.hwloc type
              (C.quo_mpi_smprank2pid s.world ctx.mpi rank 0).out (to_unsigned idx) 0).world
              ((L.nsmpranks + 1) * K.sizeof_int)).1 = true
          · simp only [State.call, ← h1, ← h2, h3, h4, ne_eq, not_true_eq_false,
              not_false_eq_true, if_false, if_true, Bool.not_true, Bool.false_eq_true]
            exact ⟨(ih _ _ _).1, fun hc _ => (ih _ _ _).2 hc rfl⟩
          · simp [State.call, ← h1, ← h2, h3, h4]
      · simp [State.call, ← h1, h2]
    · simp [State.call, h1]

/-- The loop along the run: when the iterations of the ranks below `k` succeed where the
scan visits them, the loop reaches rank `k` in the state the run defines, with the
ranks selected so far in the buffer and the calls of those iterations made. -/
theorem smpranks_loop_visit (C : Collab W) (K : Consts) (ctx : quo_t) (type idx : Int)
    (h : Nat → Option quo_t) (w0 : W) (t0 : List Event) (k : Nat)
    (hok : ∀ i, i < k →
      iter_succeeds C K ctx type idx (scan_visit C K ctx type idx w0 i) (i : Int)) :
    ∀ m, smpranks_loop C K ctx type idx (m + k) 0 ⟨K.QUO_SUCCESS, 0, none⟩ ⟨h, w0, t0⟩ =
      smpranks_loop C K ctx type idx m (k : Int)
        ⟨K.QUO_SUCCESS, ((scan_visit C K ctx type idx w0 k).2.length : Int),
          arr_of (scan_visit C K ctx type idx w0 k).2⟩
        ⟨h, (scan_visit C K ctx type idx w0 k).1,
          t0 ++ visit_events C K ctx type idx w0 k⟩ := by
  induction k with
  | zero =>
    intro m
    simp [scan_visit, visit_events, arr_of]
  | succ k ih =>
    intro m
    have hm : m + (k + 1) = (m + 1) + k := by omega
    rw [hm, ih (fun i hi => hok i (by omega)) (m + 1)]
    obtain ⟨h1, h2, h3⟩ := hok k (by omega)
    have hcast : ((k + 1 : Nat) : Int) = (k : Int) + 1 := by push_cast; rfl
    have hl : (((scan_visit C K ctx type idx w0 k).2.length : Int)).toNat
        = (scan_visit C K ctx type idx w0 k).2.length := by omega
    have hl1 : (((scan_visit C K ctx type idx w0 k).2.length : Int) + 1).toNat
        = (scan_visit C K ctx type idx w0 k).2.length + 1 := by omega
    by_cases hin : (query_at C ctx type idx (scan_visit C K ctx type idx w0 k) (k : Int)).out
        = 0
    · rw [smpranks_loop_step_skipped C K ctx type idx m (k : Int)
        (⟨K.QUO_SUCCESS, ((scan_visit C K ctx type idx w0 k).2.length : Int),
          arr_of (scan_visit C K ctx type idx w0 k).2⟩ : SmpLocals)
        (⟨h, (scan_visit C K ctx type idx w0 k).1,
          t0 ++ visit_events C K ctx type idx w0 k⟩ : State W) h1 h2 hin, hcast]
      have hv : scan_visit C K ctx type idx w0 (k + 1) =
          ((query_at C ctx type idx (scan_visit C K ctx type idx w0 k) (k : Int)).world,
            (scan_visit C K ctx type idx w0 k).2) := by
        simp [scan_visit, visit_step, hin]
      have he : visit_events C K ctx type idx w0 (k + 1) =
          visit_events C K ctx type idx w0 k ++
            [Event.quo_mpi_smprank2pid ctx.mpi (k : Int),
              Event.quo_hwloc_is_in_cpuset_by_type_id ctx.hwloc type
                (lookup_at C ctx (scan_visit C K ctx type idx w0 k) (k : Int)).out
                (to_unsigned idx)] := by
        simp [visit_events, iter_events, hin]
      rw [hv, he]
      simp only [List.append_assoc]
      rfl
    · rw [smpranks_loop_step_selected C K ctx type idx m (k : Int)
        (⟨K.QUO_SUCCESS, ((scan_visit C K ctx type idx w0 k).2.length : Int),
          arr_of (scan_visit C K ctx type idx w0 k).2⟩ : SmpLocals)
        (⟨h, (scan_visit C K ctx type idx w0 k).1,
          t0 ++ visit_events C K ctx type idx w0 k⟩ : State W) h1 h2 hin (h3 hin), hcast]
      have hv : scan_visit C K ctx type idx w0 (k + 1) =
          ((growth_at C K ctx type idx (scan_visit C K ctx type idx w0 k) (k : Int)).2,
            (scan_visit C K ctx type idx w0 k).2 ++ [(k : Int)]) := by
        simp [scan_visit, visit_step, hin]
      have he : visit_events C K ctx type idx w0 (k + 1) =
          visit_events C K ctx type idx w0 k ++
            [Event.quo_mpi_smprank2pid ctx.mpi (k : Int),
              Event.quo_hwloc_is_in_cpuset_by_type_id ctx.hwloc type
                (lookup_at C ctx (scan_visit C K ctx type idx w0 k) (k : Int)).out
                (to_unsigned idx),
              Event.realloc (growth_size K (scan_visit C K ctx type idx w0 k))] := by
        simp [visit_events, iter_events, hin]
      have hb : some ((realloc_buf (arr_of (scan_visit C K ctx type idx w0 k).2)
            (((scan_visit C K ctx type idx w0 k).2.length : Int) + 1).toNat).set
            (((scan_visit C K ctx type idx w0 k).2.length : Int)).toNat (k : Int)) =
          arr_of ((scan_visit C K ctx type idx w0 k).2 ++ [(k : Int)]) := by
        rw [hl, hl1, realloc_buf_set]
        simp [arr_of]
      rw [hv, he]
      simp only [List.append_assoc, List.length_append, List.length_singleton,
        Nat.cast_add, Nat.cast_one]
      rw [hb]
      rfl

/-- The loop when the iterations of the ranks below `k` succeed where the scan visits
them and the one of rank `k` fails at `stage`: it leaves through `goto out` with the
code `e`, the ranks selected below `k` in the buffer, and the calls up to the failing
one made. -/
theorem smpranks_loop_first_failure (C : Collab W) (K : Consts) (ctx : quo_t)
    (type idx : Int) (h : Nat → Option quo_t) (w0 : W) (t0 : List Event) (k m : Nat)
    (e : Int) (stage : Stage)
    (hok : ∀ i, i < k →
      iter_succeeds C K ctx type idx (scan_visit C K ctx type idx w0 i) (i : Int))
    (hfail : iter_fails C K ctx type idx (scan_visit C K ctx type idx w0 k) (k : Int) e
      stage) :
    ∃ s', smpranks_loop C K ctx type idx (m + 1 + k) 0 ⟨K.QUO_SUCCESS, 0, none⟩ ⟨h, w0, t0⟩ =
        (false, ⟨e, ((scan_visit C K ctx type idx w0 k).2.length : Int),
          arr_of (scan_visit C K ctx type idx w0 k).2⟩, s') ∧
      s'.heap = h ∧
      s'.trace = t0 ++ visit_events C K ctx type idx w0 k ++
        fail_events C K ctx type idx (scan_visit C K ctx type idx w0 k) (k : Int) stage := by
  rw [smpranks_loop_visit C K ctx type idx h w0 t0 k hok (m + 1)]
  cases stage with
  | lookup =>
    obtain ⟨h1, hne⟩ := hfail
    rw [smpranks_loop_fail_lookup C K ctx type idx m (k : Int)
      (⟨K.QUO_SUCCESS, ((scan_visit C K ctx type idx w0 k).2.length : Int),
        arr_of (scan_visit C K ctx type idx w0 k).2⟩ : SmpLocals)
      (⟨h, (scan_visit C K ctx type idx w0 k).1,
        t0 ++ visit_events C K ctx type idx w0 k⟩ : State W)
      (by rw [← h1] at hne; exact hne)]
    subst h1
    exact ⟨_, rfl, rfl, rfl⟩
  | query =>
    obtain ⟨h1, h2, hne⟩ := hfail
    rw [smpranks_loop_fail_query C K ctx type idx m (k : Int)
      (⟨K.QUO_SUCCESS, ((scan_visit C K ctx type idx w0 k).2.length : Int),
        arr_of (scan_visit C K ctx type idx w0 k).2⟩ : SmpLocals)
      (⟨h, (scan_visit C K ctx type idx w0 k).1,
        t0 ++ visit_events C K ctx type idx w0 k⟩ : State W) h1
      (by rw [← h2] at hne; exact hne)]
    subst h2
    exact ⟨_, rfl, rfl, by simp [fail_events, lookup_at]⟩
  | growth =>
    obtain ⟨h1, h2, h3, h4, he⟩ := hfail
    rw [smpranks_loop_fail_growth C K ctx type idx m (k : Int)
      (⟨K.QUO_SUCCESS, ((scan_visit C K ctx type idx w0 k).2.length : Int),
        arr_of (scan_visit C K ctx type idx w0 k).2⟩ : SmpLocals)
      (⟨h, (scan_visit C K ctx type idx w0 k).1,
        t0 ++ visit_events C K ctx type idx w0 k⟩ : State W) h1 h2 h3 h4]
    subst he
    exact ⟨_, rfl, rfl, by simp [fail_events, lookup_at, growth_size]⟩

/-- An iteration whose calls do not all succeed fails at one of its three calls. -/
theorem iter_fails_of_not_succeeds (C : Collab W) (K : Consts) (ctx : quo_t)
    (type idx : Int) (v : W × List Int) (r : Int)
    (h : ¬ iter_succeeds C K ctx type idx v r) :
    ∃ e stage, iter_fails C K ctx type idx v r e stage := by
  by_cases h1 : (lookup_at C ctx v r).rc = K.QUO_SUCCESS
  · by_cases h2 : (query_at C ctx type idx v r).rc = K.QUO_SUCCESS
    · by_cases h3 : (query_at C ctx type idx v r).out = 0
      · exact absurd ⟨h1, h2, fun hne => absurd h3 hne⟩ h
      · by_cases h4 : (growth_at C K ctx type idx v r).1 = true
        · exact absurd ⟨h1, h2, fun _ => h4⟩ h
        · exact ⟨K.QUO_ERR_OOR, Stage.growth, h1, h2, h3, by simpa using h4, rfl⟩
    · exact ⟨_, Stage.query, h1, rfl, h2⟩
  · exact ⟨_, Stage.lookup, rfl, h1⟩

/-- The run of the scan over `n` ranks either succeeds in every iteration or has a first
iteration with a failing call, the iterations before it succeeding: a call that fails
during the run is always of that kind. -/
theorem scan_succeeds_or_first_failure (C : Collab W) (K : Consts) (ctx : quo_t)
    (type idx : Int) (w0 : W) (n : Nat) :
    (∀ i, i < n →
      iter_succeeds C K ctx type idx (scan_visit C K ctx type idx w0 i) (i : Int)) ∨
    ∃ k e stage, k < n ∧
      (∀ i, i < k →
        iter_succeeds C K ctx type idx (scan_visit C K ctx type idx w0 i) (i : Int)) ∧
      iter_fails C K ctx type idx (scan_visit C K ctx type idx w0 k) (k : Int) e stage := by
  induction n with
  | zero => exact Or.inl (fun i hi => absurd hi (Nat.not_lt_zero i))
  | succ n ih =>
    rcases ih with hall | ⟨k, e, stage, hk, hok, hf⟩
    · by_cases hn : iter_succeeds C K ctx type idx (scan_visit C K ctx type idx w0 n) (n : Int)
      · refine Or.inl (fun i hi => ?_)
        by_cases hin : i = n
        · subst hin
          exact hn
        · exact hall i (by omega)
      · obtain ⟨e, stage, hf⟩ := iter_fails_of_not_succeeds C K ctx type idx _ _ hn
        exact Or.inr ⟨n, e, stage, by omega, hall, hf⟩
    · exact Or.inr ⟨k, e, stage, by omega, hok, hf⟩

/-- On a context whose flag is clear, `quo_smpranks_in_type` with non-null output
pointers is stopped by the guard of `quo_nnoderanks`. -/
theorem quo_smpranks_in_type_uninit (C : Collab W) (K : Consts) (s : State W) (a : Nat)
    (ctx : quo_t) (type idx n0 : Int) (l0 : IntArr) (hq : s.heap a = some ctx)
    (hi : ctx.initialized = false) :
    quo_smpranks_in_type C K s (some a) type idx (some n0) (some l0) =
      some ⟨K.QUO_ERR_CALL_BEFORE_INIT, (some 0, some none),
        noinit_msg_emit K "quo_nnoderanks" s⟩ := by
  have hh : (noinit_msg_emit K "quo_nnoderanks" s).heap a = some ctx := hq
  by_cases hk : K.QUO_SUCCESS = K.QUO_ERR_CALL_BEFORE_INIT <;>
    simp [quo_smpranks_in_type, quo_nnoderanks,
      noinit_action_uninit K _ s a ctx _ _ hq hi, smpranks_loop, smpranks_finish, hk, hh]

/-- C10: on a non-null context with non-null output pointers, a failure inside
`quo_smpranks_in_type` ends the operation at the failing call, with that call's code
and with count 0 and a NULL list in the caller's outputs.  First part, for every
collaborator: the operation returns, leaves the contexts alone, and whenever its return
code is not `QUO_SUCCESS` the outputs hold 0 and NULL, so no partial result is handed
back.  Second part: when the rank-count query `quo_nnoderanks` returns a code other than
`QUO_SUCCESS`, that code is returned and the state is the one the query left.  Third
part, on the states the scan visits (`scan_visit`, starting in the state the rank-count
query left): when the calls of the iterations below rank `k` succeed where the scan
makes them and a call of the iteration of rank `k` fails where the scan makes it (the
lookup or the query with code `e`, or the growth of the buffer, for which `e` is
`QUO_ERR_OOR`), the code `e` is returned, and the calls made are the rank-count query,
those of the ranks below `k`, those of rank `k` up to the failing one, and the release
of the buffer when it was allocated: no call for a rank above `k`. -/
theorem quo_smpranks_in_type_failure (C : Collab W) (K : Consts) (s : State W) (a : Nat)
    (ctx : quo_t) (type idx n0 : Int) (l0 : IntArr) (hq : s.heap a = some ctx) :
    (∃ r, quo_smpranks_in_type C K s (some a) type idx (some n0) (some l0) = some r ∧
      r.st.heap = s.heap ∧ (r.rc ≠ K.QUO_SUCCESS → r.out = (some 0, some none))) ∧
    (∃ r0, quo_nnoderanks C K s (some a) (some 0) = some r0 ∧
      (r0.rc ≠ K.QUO_SUCCESS →
        quo_smpranks_in_type C K s (some a) type idx (some n0) (some l0) =
          some ⟨r0.rc, (some 0, some none), r0.st⟩)) ∧
    ∀ (N : Int) (k : Nat) (e : Int) (stage : Stage),
      ctx.initialized = true →
      (C.quo_mpi_nnoderanks s.world ctx.mpi 0).rc = K.QUO_SUCCESS →
      (C.quo_mpi_nnoderanks s.world ctx.mpi 0).out = N →
      (k : Int) < N →
      (∀ i, i < k → iter_succeeds C K ctx type idx
        (scan_visit C K ctx type idx (C.quo_mpi_nnoderanks s.world ctx.mpi 0).world i)
        (i : Int)) →
      iter_fails C K ctx type idx
        (scan_visit C K ctx type idx (C.quo_mpi_nnoderanks s.world ctx.mpi 0).world k)
        (k : Int) e stage →
      ∃ r, quo_smpranks_in_type C K s (some a) type idx (some n0) (some l0) = some r ∧
        r.rc = e ∧ r.out = (some 0, some none) ∧ r.st.heap = s.heap ∧
        r.st.trace = s.trace ++ [Event.quo_mpi_nnoderanks ctx.mpi] ++
          visit_events C K ctx type idx (C.quo_mpi_nnoderanks s.world ctx.mpi 0).world k ++
          fail_events C K ctx type idx
            (scan_visit C K ctx type idx (C.quo_mpi_nnoderanks s.world ctx.mpi 0).world k)
            (k : Int) stage ++
          (if K.QUO_SUCCESS ≠ e ∧
              (scan_visit C K ctx type idx
                (C.quo_mpi_nnoderanks s.world ctx.mpi 0).world k).2 ≠ []
            then [Event.free_buf] else []) := by
  refine ⟨?_, ?_, ?_⟩
  · cases hinit : ctx.initialized with
    | false =>
      exact ⟨_, quo_smpranks_in_type_uninit C K s a ctx type idx n0 l0 hq hinit, rfl,
        fun _ => rfl⟩
    | true =>
      by_cases hN : (C.quo_mpi_nnoderanks s.world ctx.mpi 0).rc = K.QUO_SUCCESS
      · refine ⟨_, quo_smpranks_in_type_unfold C K s a ctx type idx n0 l0 hq hinit hN,
          ?_, ?_⟩
        · simp only [smpranks_finish]
          split
          · exact (smpranks_loop_outcome C K ctx type idx _ _ _ _).1
          · exact (smpranks_loop_outcome C K ctx type idx _ _ _ _).1
        · intro hne
          simp only [smpranks_finish] at hne ⊢
          split
          · rename_i hdone
            exact absurd
              ((smpranks_loop_outcome C K ctx type idx _ _ _ _).2 hdone rfl) hne
          · rfl
      · have hne' : ¬ K.QUO_SUCCESS = (C.quo_mpi_nnoderanks s.world ctx.mpi 0).rc :=
          fun h => hN h.symm
        refine ⟨⟨(C.quo_mpi_nnoderanks s.world ctx.mpi 0).rc, (some 0, some none),
          s.call (Event.quo_mpi_nnoderanks ctx.mpi)
            (C.quo_mpi_nnoderanks s.world ctx.mpi 0).world⟩, ?_, rfl, fun _ => rfl⟩
        simp [quo_smpranks_in_type, quo_nnoderanks,
          noinit_action_init K _ s a ctx _ _ hq hinit, hne']
  · cases hinit : ctx.initialized with
    | false =>
      refine ⟨⟨K.QUO_ERR_CALL_BEFORE_INIT, some 0, noinit_msg_emit K "quo_nnoderanks" s⟩,
        by simp [quo_nnoderanks, noinit_action_uninit K _ s a ctx _ _ hq hinit], ?_⟩
      intro _
      exact quo_smpranks_in_type_uninit C K s a ctx type idx n0 l0 hq hinit
    | true =>
      refine ⟨⟨(C.quo_mpi_nnoderanks s.world ctx.mpi 0).rc,
          some (C.quo_mpi_nnoderanks s.world ctx.mpi 0).out,
          s.call (Event.quo_mpi_nnoderanks ctx.mpi)
            (C.quo_mpi_nnoderanks s.world ctx.mpi 0).world⟩,
        by simp [quo_nnoderanks, noinit_action_init K _ s a ctx _ _ hq hinit], ?_⟩
      intro hne
      have hne' : ¬ K.QUO_SUCCESS = (C.quo_mpi_nnoderanks s.world ctx.mpi 0).rc :=
        fun h => hne h.symm
      simp [quo_smpranks_in_type, quo_nnoderanks,
        noinit_action_init K _ s a ctx _ _ hq hinit, hne']
  · intro N k e stage hi hN hNv hkN hok hfail
    obtain ⟨m, hm⟩ : ∃ m, N.toNat = m + 1 + k := ⟨N.toNat - k - 1, by omega⟩
    obtain ⟨s', h1, h2, h3⟩ :=
      smpranks_loop_first_failure C K ctx type idx s.heap
        (C.quo_mpi_nnoderanks s.world ctx.mpi 0).world
        (s.trace ++ [Event.quo_mpi_nnoderanks ctx.mpi]) k m e stage hok hfail
    refine ⟨_, quo_smpranks_in_type_unfold C K s a ctx type idx n0 l0 hq hi hN, ?_, ?_, ?_,
      ?_⟩
    · rw [hNv, hm, h1]
      rfl
    · rw [hNv, hm, h1]
      rfl
    · rw [hNv, hm, h1]
      simp only [smpranks_finish]
      split
      · exact h2
      · exact h2
    · rw [hNv, hm, h1]
      simp only [smpranks_finish, arr_of_isSome]
      split
      · simp [State.emit, h3]
      · simp [h3]

/-- C10 at a concrete input: `realloc` fails only in the state the scan reaches at the
second growth.  Rank 0 is selected, rank 1 is not, and for rank 2 the lookup and the
query succeed and the growth fails: `QUO_ERR_OOR` comes back with count 0 and a NULL
list, and the buffer that held rank 0 is released. -/
theorem quo_smpranks_in_type_failure_witness :
    ∃ r, quo_smpranks_in_type (demo_realloc_fails 8) demo_consts (demo_state true) (some 7)
        1 1 (some 5) (some none) = some r ∧
      r.rc = demo_consts.QUO_ERR_OOR ∧ r.out = (some 0, some none) ∧
      r.st.trace = [Event.quo_mpi_nnoderanks (some 12),
        Event.quo_mpi_smprank2pid (some 12) 0,
        Event.quo_hwloc_is_in_cpuset_by_type_id (some 11) 1 100 1,
        Event.realloc 4,
        Event.quo_mpi_smprank2pid (some 12) 1,
        Event.quo_hwloc_is_in_cpuset_by_type_id (some 11) 1 101 1,
        Event.quo_mpi_smprank2pid (some 12) 2,
        Event.quo_hwloc_is_in_cpuset_by_type_id (some 11) 1 102 1,
        Event.realloc 8,
        Event.free_buf] := by
  obtain ⟨r, h1, h2, h3, _, h5⟩ :=
    (quo_smpranks_in_type_failure (demo_realloc_fails 8) demo_consts (demo_state true) 7
      (demo_ctx true) 1 1 5 none rfl).2.2 3 2 demo_consts.QUO_ERR_OOR Stage.growth rfl rfl
      rfl (by decide)
      (by
        intro i hi
        interval_cases i
        · exact ⟨rfl, rfl, fun _ => rfl⟩
        · exact ⟨rfl, rfl, fun _ => rfl⟩)
      ⟨rfl, rfl, by decide, rfl, rfl⟩
  refine ⟨r, h1, h2, h3, ?_⟩
  rw [h5]
  rfl

end Quo
